import Mathlib

/-!
Verification of the escrow booking lifecycle of the rentmenaija backend.

The embedding translates the Django views and model methods of the
transactions and payments apps into pure Lean functions over an explicit
state:

* `Booking`, `LeasePayment`, `HotelBooking` mirror the three mutable
  tables (transactions/models.py, hotels/models.py).
* `Env` holds the read-only collaborators: the published listing stores,
  the room-type table, the bank-code mapping from settings, and the flag
  saying whether the Squad gateway credentials are configured.
* Outbound gateway calls are modelled by oracle arguments
  (`ChargeOutcome`, `DisburseOutcome`) giving the outcome the gateway
  would return if called.
* Time is a `Nat` number of seconds (`timezone.now()`); dates are `Int`
  day indices, so that `(check_out - check_in).days` is plain integer
  subtraction. Money is `Rat` (Django decimals).
* An unhandled Python exception inside a view (TypeError on comparing
  None, AttributeError on a missing attribute, KeyError on a missing
  dict key), which Django reports as a 500 response, is modelled by the
  error kind `ErrKind.pythonError`.
* Request-body parsing is modelled as already done: missing fields are
  `Option.none` arguments, and a date string that fails to parse is
  conflated with a missing date.
-/

namespace RentEscrow

/-- Listing type tag of a booking or payment (`LISTING_TYPE_CHOICES`). -/
inductive LType where
  | landlord
  | agent
  | hotel
deriving DecidableEq, Repr

/-- Booking lifecycle status (`Booking.STATUS_CHOICES`). -/
inductive BStatus where
  | saved
  | paidPendingConfirmation
  | confirmed
  | cancelled
  | refunded
  | released
deriving DecidableEq, Repr

/-- Refund status of a booking (`Booking.REFUND_STATUS_CHOICES`). -/
inductive RefundStatus where
  | noneYet
  | requested
  | processed
deriving DecidableEq, Repr

/-- Release status of a booking (`Booking.RELEASE_STATUS_CHOICES`). -/
inductive ReleaseStatus where
  | pending
  | released
deriving DecidableEq, Repr

/-- Status of a `LeasePayment` record (pending, paid, failed). -/
inductive PayStatus where
  | pending
  | paid
  | failed
deriving DecidableEq, Repr

/-- Status of a `HotelBooking` record. -/
inductive HBStatus where
  | pending
  | paid
  | cancelled
  | completed
deriving DecidableEq, Repr

/-- The `Booking` row of transactions/models.py. Timestamps are seconds;
`updatedAt` mirrors the `auto_now` field `updated_at`. -/
structure Booking where
  id : Nat
  userId : Nat
  listingType : LType
  listingId : Nat
  initialAmountPaidNgn : Option Rat
  paymentType : Option String
  status : BStatus
  refundStatus : RefundStatus
  releaseStatus : ReleaseStatus
  refundProcessedAt : Option Nat
  releasedAt : Option Nat
  payoutRef : Option String
  fundsReleased : Bool
  checkInDate : Option Int
  checkOutDate : Option Int
  leasePayment : Option Nat
  createdAt : Nat
  updatedAt : Nat
deriving DecidableEq, Repr

/-- The `LeasePayment` row of transactions/models.py. -/
structure LeasePayment where
  id : Nat
  listingType : LType
  listingId : Nat
  tenant : Nat
  landlordOrAgent : Nat
  amountPaidNgn : Rat
  paymentType : String
  status : PayStatus
  transactionRef : String
deriving DecidableEq, Repr

/-- The `HotelBooking` row of hotels/models.py. -/
structure HotelBooking where
  id : Nat
  userId : Nat
  roomId : Nat
  checkIn : Int
  checkOut : Int
  amountPaidNgn : Rat
  status : HBStatus
  transactionRef : String
deriving DecidableEq, Repr

/-- A published rental listing (a `Property` or `AgentProperty` together
with the draft fields the views read through it: monthly rent, lease
term preference, the owning user, and the owner bank details). Nullable
model fields are `Option`. -/
structure RentalListing where
  ownerId : Nat
  monthlyRent : Option Rat
  leaseTermPreference : Option String
  ownerBankName : Option String
  ownerAccountNumber : Option String
  ownerAccountName : Option String
  bankVerified : Bool
deriving DecidableEq, Repr

/-- A published `HotelListing`: it has an owner but none of the
rent-listing attributes (no monthly rent, no lease term, no owner bank
fields). -/
structure HotelL where
  ownerId : Nat
deriving DecidableEq, Repr

/-- A `RoomType` row of hotels/models.py. -/
structure RoomT where
  id : Nat
  hotelId : Nat
  pricePerNight : Rat
deriving DecidableEq, Repr

/-- Read-only environment: the listing stores, settings.BANK_CODE_MAPPING
and the presence of the Squad gateway credentials in settings. -/
structure Env where
  landlordListings : List (Nat × RentalListing)
  agentListings : List (Nat × RentalListing)
  hotelListings : List (Nat × HotelL)
  roomTypes : List RoomT
  bankCodeMapping : List (String × String)
  squadConfigured : Bool
deriving Repr

/-- Mutable state: the three tables plus id counters used for fresh
primary keys and transaction references. -/
structure State where
  bookings : List Booking
  leasePayments : List LeasePayment
  hotelBookings : List HotelBooking
  nextBookingId : Nat
  nextPaymentId : Nat
deriving DecidableEq, Repr

/-- Outcome the Squad charge-initiation endpoint would return. -/
inductive ChargeOutcome where
  | success (checkoutUrl : String)
  | rejected (msg : String)
  | netError
deriving DecidableEq, Repr

/-- Outcome the Squad payout-transfer endpoint would return. -/
inductive DisburseOutcome where
  | success (payoutRef : Option String)
  | rejected (msg : String)
  | netError
deriving DecidableEq, Repr

/-- Error kinds of the structured failure responses of the views. -/
inductive ErrKind where
  | missingFields
  | invalidPaymentType
  | listingNotFound
  | amountNotSupported
  | unsupportedLeaseTerm
  | missingHotelFields
  | invalidDateRange
  | roomTypeNotFound
  | gatewayMisconfigured
  | gatewayRejected (msg : String)
  | gatewayNetError
  | duplicateBooking
  | bookingNotFound
  | wrongStatus
  | confirmationWindowExpired
  | cancellationWindowExpired
  | refundWindowExpired
  | automaticProcessExpected
  | listingForBookingNotFound
  | notAuthorized
  | releaseNotEligible
  | missingBankDetails
  | unmappedBankCode
  | pythonError
deriving DecidableEq, Repr

/-- Response of a view: a 2xx success carrying a short message tag, or a
structured failure. -/
inductive Resp where
  | ok (msg : String)
  | err (e : ErrKind)
deriving DecidableEq, Repr

/-- Whether a response is a success (HTTP 2xx). -/
def Resp.isOk : Resp → Bool
  | .ok _ => true
  | .err _ => false

/-- Association-list lookup keyed by a natural number id, modelling a
primary-key fetch from a table. -/
def lookupNat {α : Type} (l : List (Nat × α)) (k : Nat) : Option α :=
  (l.find? (fun p => p.1 == k)).map (fun p => p.2)

/-- Lookup in settings.BANK_CODE_MAPPING. -/
def lookupStr (l : List (String × String)) (k : String) : Option String :=
  (l.find? (fun p => p.1 == k)).map (fun p => p.2)

/-- Python truthiness of an optional string: None and the empty string
are falsy. -/
def optTruthy (s : Option String) : Bool :=
  match s with
  | none => false
  | some str => !(str == "")

/-- Whether a character is stripped by `str.strip()` (ASCII whitespace). -/
def isStripped (c : Char) : Bool :=
  c == ' ' || c == '\t' || c == '\n' || c == '\r'

/-- The key used for the bank-code mapping lookup:
`bank_name.lower().strip()`, written on the character list so that it
evaluates by kernel reduction. -/
def bankNameKey (s : String) : String :=
  let lowered := s.data.map Char.toLower
  String.mk (((lowered.dropWhile isStripped).reverse.dropWhile isStripped).reverse)

/-- Whether a status counts as an active intent
(`status__in=['saved', 'paid_pending_confirmation']`). -/
def isActiveStatus (s : BStatus) : Bool :=
  s == .saved || s == .paidPendingConfirmation

/-- The filter used by save_booking to detect an existing active booking
for the same (user, listing_type, listing_id). -/
def matchesActive (u : Nat) (lt : LType) (lid : Nat) (b : Booking) : Bool :=
  b.userId == u && b.listingType == lt && b.listingId == lid && isActiveStatus b.status

/-- The filter used by initiate_lease_payment to find the saved booking
for the same (user, listing_type, listing_id). -/
def matchesSaved (u : Nat) (lt : LType) (lid : Nat) (b : Booking) : Bool :=
  b.userId == u && b.listingType == lt && b.listingId == lid && b.status == .saved

/-- Whether a published listing of the stated type and id exists. -/
def listingExists (env : Env) (lt : LType) (lid : Nat) : Bool :=
  match lt with
  | .landlord => (lookupNat env.landlordListings lid).isSome
  | .agent => (lookupNat env.agentListings lid).isSome
  | .hotel => (lookupNat env.hotelListings lid).isSome

/-- The rent listing the amount computation of initiate_lease_payment
reads (published Property or AgentProperty resolved with its draft
fields); a hotel listing is not a rent listing. -/
def rentListingFor (env : Env) (lt : LType) (lid : Nat) : Option RentalListing :=
  match lt with
  | .landlord => lookupNat env.landlordListings lid
  | .agent => lookupNat env.agentListings lid
  | .hotel => none

/-- The owner of the published listing a booking refers to, as resolved
by release_funds (draft.user, draft.agent or HotelListing.owner). -/
def listingOwner (env : Env) (lt : LType) (lid : Nat) : Option Nat :=
  match lt with
  | .landlord => (lookupNat env.landlordListings lid).map (fun l => l.ownerId)
  | .agent => (lookupNat env.agentListings lid).map (fun l => l.ownerId)
  | .hotel => (lookupNat env.hotelListings lid).map (fun h => h.ownerId)

/-- Bank account details of the beneficiary as assembled by
`Booking.get_landlord_account_details`: `getattr` with default None, so
a hotel listing (which has no owner bank fields) yields all-None details
with `bank_verified = False`. -/
structure AccountDetails where
  bankName : Option String
  accountNumber : Option String
  accountName : Option String
  bankVerified : Bool
deriving DecidableEq, Repr

/-- `Booking.get_landlord_account_details`: None when the published
listing does not resolve, otherwise the four detail fields. -/
def get_landlord_account_details (env : Env) (b : Booking) : Option AccountDetails :=
  match b.listingType with
  | .landlord =>
    (lookupNat env.landlordListings b.listingId).map (fun l =>
      { bankName := l.ownerBankName, accountNumber := l.ownerAccountNumber,
        accountName := l.ownerAccountName, bankVerified := l.bankVerified })
  | .agent =>
    (lookupNat env.agentListings b.listingId).map (fun l =>
      { bankName := l.ownerBankName, accountNumber := l.ownerAccountNumber,
        accountName := l.ownerAccountName, bankVerified := l.bankVerified })
  | .hotel =>
    (lookupNat env.hotelListings b.listingId).map (fun _ =>
      { bankName := none, accountNumber := none, accountName := none,
        bankVerified := false })

/-- `Booking.is_in_cancellation_window`: at most 24 hours since
creation. -/
def is_in_cancellation_window (now : Nat) (b : Booking) : Bool :=
  now - b.createdAt ≤ 24 * 3600

/-- `Booking.is_in_confirmation_window`: status must be
paid_pending_confirmation and at most 48 hours may have passed since the
last status change (`updated_at`). -/
def is_in_confirmation_window (now : Nat) (b : Booking) : Bool :=
  b.status == .paidPendingConfirmation && now - b.updatedAt ≤ 48 * 3600

/-- `Booking.can_release_funds`, with the Python short-circuit order kept:
status is checked before the amount, so the TypeError raised by
comparing a null amount with 0 (modelled as `none`) only fires on a
confirmed booking with no recorded amount. -/
def can_release_funds (env : Env) (b : Booking) : Option Bool :=
  if b.status != .confirmed then some false
  else
    match b.initialAmountPaidNgn with
    | none => none
    | some a =>
      if a ≤ 0 then some false
      else if b.fundsReleased then some false
      else
        match get_landlord_account_details env b with
        | none => some false
        | some d =>
          some (optTruthy d.bankName && optTruthy d.accountNumber &&
                optTruthy d.accountName && d.bankVerified)

/-- `Booking.mark_funds_released`: sets the released flag, the release
status, the release timestamp, and the payout reference when one is
given (a falsy reference keeps the old value). `save(update_fields=...)`
does not touch `updated_at`. -/
def mark_funds_released (now : Nat) (pref : Option String) (b : Booking) : Booking :=
  { b with fundsReleased := true, releaseStatus := .released,
           releasedAt := some now,
           payoutRef := if optTruthy pref then pref else b.payoutRef }

/-- Replace the bookings whose primary key is `bid` (a Django save of a
fetched row writes back by primary key). -/
def updateBooking (st : State) (bid : Nat) (f : Booking → Booking) : State :=
  { st with bookings := st.bookings.map (fun b => if b.id == bid then f b else b) }

/-- A fresh Booking row as created by save_booking: default statuses,
no payment, check-in and check-out only stored for hotel listings. -/
def newSavedBooking (now : Nat) (bid : Nat) (u : Nat) (lt : LType) (lid : Nat)
    (ci co : Option Int) : Booking :=
  { id := bid, userId := u, listingType := lt, listingId := lid,
    initialAmountPaidNgn := none, paymentType := none, status := .saved,
    refundStatus := .noneYet, releaseStatus := .pending,
    refundProcessedAt := none, releasedAt := none, payoutRef := none,
    fundsReleased := false,
    checkInDate := if lt == .hotel then ci else none,
    checkOutDate := if lt == .hotel then co else none,
    leasePayment := none, createdAt := now, updatedAt := now }

/-- The save_booking view (transactions/views.py): validates that the
published listing exists, rejects a duplicate active intent for the same
(user, listing_type, listing_id), and otherwise creates a Booking in
status saved. -/
def save_booking (env : Env) (now : Nat) (st : State) (u : Nat) (lt : LType)
    (lid : Nat) (ci co : Option Int) : State × Resp :=
  if !(listingExists env lt lid) then
    (st, .err .listingNotFound)
  else
    match st.bookings.find? (matchesActive u lt lid) with
    | some _ => (st, .err .duplicateBooking)
    | none =>
      ({ st with
           bookings := st.bookings ++ [newSavedBooking now st.nextBookingId u lt lid ci co],
           nextBookingId := st.nextBookingId + 1 },
       .ok "saved")

/-- The lease-term-to-months mapping of initiate_lease_payment. -/
def lease_term_to_months (t : String) : Option Nat :=
  if t == "monthly" then some 1
  else if t == "6_months" then some 6
  else if t == "1_year" then some 12
  else if t == "2_years" then some 24
  else none

/-- The payment types accepted by initiate_lease_payment. -/
def validPaymentTypes : List String :=
  ["security_deposit", "first_month_rent", "last_month_rent", "booking_fee",
   "full_lease_payment"]

/-- The payment-type branch of initiate_lease_payment computing the
amount for a rent listing. For a hotel listing the calculation object is
the HotelListing, which has no monthly_rent and no
lease_term_preference, so every branch that reads them raises
AttributeError (`pythonError`); in the full-lease branch
`float(monthly_rent)` is evaluated before the term mapping lookup, so a
null rent raises before an unsupported term is reported. The payment
type last_month_rent reaches the final else branch (no amount rule). -/
def leaseAmount (env : Env) (lt : LType) (lid : Nat) (pt : String) : Except ErrKind Rat :=
  if pt == "security_deposit" || pt == "first_month_rent" then
    match rentListingFor env lt lid with
    | none => .error .pythonError
    | some l =>
      match l.monthlyRent with
      | none => .error .pythonError
      | some r => .ok r
  else if pt == "booking_fee" then .ok 10000
  else if pt == "full_lease_payment" then
    match rentListingFor env lt lid with
    | none => .error .pythonError
    | some l =>
      match l.monthlyRent with
      | none => .error .pythonError
      | some r =>
        match l.leaseTermPreference.bind lease_term_to_months with
        | none => .error .unsupportedLeaseTerm
        | some m => .ok (r * (m : Rat))
  else .error .amountNotSupported

/-- The hotel-stay amount branch of initiate_lease_payment: dates and
room type required, check-out strictly after check-in, nights =
check_out - check_in, amount = nightly rate of the room times nights.
The room must belong to the stated hotel. -/
def hotelStayAmount (env : Env) (lid : Nat) (ci co : Option Int)
    (roomTypeId : Option Nat) : Except ErrKind Rat :=
  match ci, co, roomTypeId with
  | some cin, some cout, some rid =>
    if cout ≤ cin then .error .invalidDateRange
    else
      let nights : Int := cout - cin
      if nights ≤ 0 then .error .invalidDateRange
      else
        match env.roomTypes.find? (fun r => r.id == rid && r.hotelId == lid) with
        | none => .error .roomTypeNotFound
        | some room => .ok (room.pricePerNight * (nights : Rat))
  | _, _, _ => .error .missingHotelFields

/-- The LeasePayment row created by initiate_lease_payment: pending, with
a fresh transaction reference derived from the payment id counter. -/
def newLeasePayment (pid : Nat) (u : Nat) (lt : LType) (lid : Nat) (pt : String)
    (amount : Rat) (owner : Nat) : LeasePayment :=
  { id := pid, listingType := lt, listingId := lid, tenant := u,
    landlordOrAgent := owner, amountPaidNgn := amount, paymentType := pt,
    status := .pending, transactionRef := "LEASEPAY_" ++ toString pid }

/-- The update applied to the saved Booking that initiate_lease_payment
links to the new LeasePayment: the status advances to
paid_pending_confirmation immediately (before the gateway confirms), the
amount and payment type are recorded, hotel stay dates are stored, and
the save bumps `updated_at`. -/
def linkSavedBooking (now : Nat) (pid : Nat) (lt : LType) (pt : String)
    (ci co : Option Int) (amount : Rat) (b : Booking) : Booking :=
  { b with leasePayment := some pid, status := .paidPendingConfirmation,
           initialAmountPaidNgn := some amount, paymentType := some pt,
           checkInDate := if lt == .hotel then ci else b.checkInDate,
           checkOutDate := if lt == .hotel then co else b.checkOutDate,
           updatedAt := now }

/-- The Booking created directly in paid_pending_confirmation when no
saved booking exists for the pair. -/
def newPaidBooking (now : Nat) (bid : Nat) (u : Nat) (lt : LType) (lid : Nat)
    (pt : String) (ci co : Option Int) (amount : Rat) (pid : Nat) : Booking :=
  { id := bid, userId := u, listingType := lt, listingId := lid,
    initialAmountPaidNgn := some amount, paymentType := some pt,
    status := .paidPendingConfirmation, refundStatus := .noneYet,
    releaseStatus := .pending, refundProcessedAt := none, releasedAt := none,
    payoutRef := none, fundsReleased := false,
    checkInDate := if lt == .hotel then ci else none,
    checkOutDate := if lt == .hotel then co else none,
    leasePayment := some pid, createdAt := now, updatedAt := now }

/-- The booking-linkage block of initiate_lease_payment: a Django `get`
on the saved booking for the (user, listing_type, listing_id) pair.
Exactly one match links and advances it, no match creates a fresh
paid_pending_confirmation Booking, and several matches
(MultipleObjectsReturned) are logged and skipped. -/
def linkOrCreateBooking (now : Nat) (st : State) (u : Nat) (lt : LType) (lid : Nat)
    (pt : String) (ci co : Option Int) (amount : Rat) (pid : Nat) : State :=
  match st.bookings.filter (matchesSaved u lt lid) with
  | [b0] => updateBooking st b0.id (linkSavedBooking now pid lt pt ci co amount)
  | [] =>
    { st with
        bookings := st.bookings ++
          [newPaidBooking now st.nextBookingId u lt lid pt ci co amount pid],
        nextBookingId := st.nextBookingId + 1 }
  | _ => st

/-- `lease_payment.delete()` when the gateway is misconfigured: the row
is removed and the OneToOneField on Booking is SET_NULL, clearing the
reference on any booking that held it (without touching `updated_at`). -/
def deleteLeasePayment (st : State) (pid : Nat) : State :=
  { st with
      leasePayments := st.leasePayments.filter (fun p => p.id != pid),
      bookings := st.bookings.map (fun b =>
        if b.leasePayment == some pid then { b with leasePayment := none } else b) }

/-- Marking the LeasePayment failed after a gateway rejection or network
error (the linked Booking is not rolled back). -/
def markLeaseFailed (st : State) (pid : Nat) : State :=
  { st with leasePayments := st.leasePayments.map (fun p =>
      if p.id == pid then { p with status := .failed } else p) }

/-- The amount computation of initiate_lease_payment: the payment-type
branch first, then for a hotel listing the hotel-stay override. -/
def initiateAmount (env : Env) (lt : LType) (lid : Nat) (pt : String)
    (ci co : Option Int) (room : Option Nat) : Except ErrKind Rat :=
  match leaseAmount env lt lid pt with
  | .error e => .error e
  | .ok base =>
    if lt == .hotel then hotelStayAmount env lid ci co room else .ok base

/-- The record-creation and gateway tail of initiate_lease_payment:
create the pending LeasePayment, link or create the Booking, then check
the Squad configuration (deleting the LeasePayment when absent, which
nulls the Booking link but keeps its advanced status) and call the
gateway (marking the LeasePayment failed on rejection or network error
without rolling the Booking back). -/
def initiateCharge (env : Env) (gw : ChargeOutcome) (now : Nat) (st : State)
    (u : Nat) (lt : LType) (lid : Nat) (pt : String) (ci co : Option Int)
    (amount : Rat) (owner : Nat) : State × Resp :=
  let pid := st.nextPaymentId
  let st1 : State :=
    { st with leasePayments := st.leasePayments ++ [newLeasePayment pid u lt lid pt amount owner],
              nextPaymentId := pid + 1 }
  let st2 := linkOrCreateBooking now st1 u lt lid pt ci co amount pid
  if !env.squadConfigured then
    (deleteLeasePayment st2 pid, .err .gatewayMisconfigured)
  else
    match gw with
    | .success url => (st2, .ok ("checkout_" ++ url))
    | .rejected msg => (markLeaseFailed st2 pid, .err (.gatewayRejected msg))
    | .netError => (markLeaseFailed st2 pid, .err .gatewayNetError)

/-- The initiate_lease_payment view (transactions/views.py): validate
the payment type, resolve the listing, compute the amount, resolve the
beneficiary, then run the record-creation and gateway tail. -/
def initiate_lease_payment (env : Env) (gw : ChargeOutcome) (now : Nat) (st : State)
    (u : Nat) (lt : LType) (lid : Nat) (pt : String)
    (ci co : Option Int) (roomTypeId : Option Nat) : State × Resp :=
  if !(validPaymentTypes.contains pt) then
    (st, .err .invalidPaymentType)
  else if !(listingExists env lt lid) then
    (st, .err .listingNotFound)
  else
    match initiateAmount env lt lid pt ci co roomTypeId with
    | .error e => (st, .err e)
    | .ok amount =>
      match listingOwner env lt lid with
      | none => (st, .err .listingNotFound)
      | some owner => initiateCharge env gw now st u lt lid pt ci co amount owner

/-- The confirm_booking view (transactions/views.py). Fetched by id and
owning user together, so a missing booking and a foreign booking yield
the same not-found error. Requires status paid_pending_confirmation and
the 48-hour confirmation window. On success the status becomes
confirmed; when the paid amount is positive and funds are unreleased it
attempts an immediate release, but every release path ends in a 200
response with the booking confirmed: missing details or an unmapped bank
yield a warning, and the disbursement-payload construction itself
evaluates `landlord_details['property_title']`, a key the details dict
never contains, so the KeyError is caught by the blanket handler before
the gateway is ever called. A null paid amount makes the
`initial_amount_paid_ngn > 0` comparison raise (`pythonError`). -/
def confirm_booking (env : Env) (now : Nat) (st : State) (u : Nat) (bid : Nat) :
    State × Resp :=
  match st.bookings.find? (fun b => b.id == bid && b.userId == u) with
  | none => (st, .err .bookingNotFound)
  | some b =>
    if b.status != .paidPendingConfirmation then (st, .err .wrongStatus)
    else if !(is_in_confirmation_window now b) then
      (st, .err .confirmationWindowExpired)
    else
      match b.initialAmountPaidNgn with
      | none => (st, .err .pythonError)
      | some amt =>
        let b1 : Booking := { b with status := .confirmed, updatedAt := now }
        let st1 := updateBooking st bid (fun _ => b1)
        if amt > 0 && !b.fundsReleased then
          match get_landlord_account_details env b with
          | none => (st1, .ok "confirmed_warning_missing_bank_details")
          | some d =>
            if !(optTruthy d.accountNumber) then
              (st1, .ok "confirmed_warning_missing_bank_details")
            else
              match d.bankName with
              | none => (st1, .ok "confirmed_warning_unexpected_error")
              | some bn =>
                match lookupStr env.bankCodeMapping (bankNameKey bn) with
                | none => (st1, .ok "confirmed_warning_no_bank_code")
                | some _ => (st1, .ok "confirmed_warning_unexpected_error")
        else (st1, .ok "confirmed")

/-- The cancel_booking view (transactions/views.py): fetch by id and
owner, reject terminal statuses, enforce the 24-hour cancellation
window, then cancel and request a refund. -/
def cancel_booking (now : Nat) (st : State) (u : Nat) (bid : Nat) : State × Resp :=
  match st.bookings.find? (fun b => b.id == bid && b.userId == u) with
  | none => (st, .err .bookingNotFound)
  | some b =>
    if b.status == .confirmed || b.status == .cancelled || b.status == .refunded ||
       b.status == .released then
      (st, .err .wrongStatus)
    else if !(is_in_cancellation_window now b) then
      (st, .err .cancellationWindowExpired)
    else
      (updateBooking st bid (fun x =>
         { x with status := .cancelled, refundStatus := .requested,
                  refundProcessedAt := some now, updatedAt := now }),
       .ok "cancelled")

/-- The request_refund view (transactions/views.py): fetch by id and
owner, only paid_pending_confirmation is eligible, the cancellation
window must be open, and once the confirmation window has lapsed the
manual request is rejected in favour of the automatic process. -/
def request_refund (now : Nat) (st : State) (u : Nat) (bid : Nat) : State × Resp :=
  match st.bookings.find? (fun b => b.id == bid && b.userId == u) with
  | none => (st, .err .bookingNotFound)
  | some b =>
    if b.status != .paidPendingConfirmation then (st, .err .wrongStatus)
    else if !(is_in_cancellation_window now b) then
      (st, .err .refundWindowExpired)
    else if b.status == .paidPendingConfirmation &&
            !(is_in_confirmation_window now b) then
      (st, .err .automaticProcessExpected)
    else
      (updateBooking st bid (fun x =>
         { x with status := .cancelled, refundStatus := .requested,
                  refundProcessedAt := some now, updatedAt := now }),
       .ok "refund_requested")

/-- The release_funds view (transactions/views.py). The booking is
fetched by id alone (`get_object_or_404(Booking, id=booking_id)`), so a
missing booking yields a 404 while a foreign booking yields a 403 after
the owner check. The guard is `can_release_funds`; when it fails, the
reason string is built by re-evaluating the conditions, and that
re-evaluation compares the possibly-null amount with 0 (a crash for a
null amount). After the guard, bank details are re-read, the bank code
is looked up, and the gateway is called; success marks the funds
released. The third component records whether the gateway was called. -/
def release_funds (env : Env) (gw : DisburseOutcome) (now : Nat) (st : State)
    (u : Nat) (bid : Nat) : State × Resp × Bool :=
  match st.bookings.find? (fun b => b.id == bid) with
  | none => (st, .err .bookingNotFound, false)
  | some b =>
    if !(listingExists env b.listingType b.listingId) then
      (st, .err .listingForBookingNotFound, false)
    else
      match listingOwner env b.listingType b.listingId with
      | none => (st, .err .notAuthorized, false)
      | some owner =>
        if u != owner then (st, .err .notAuthorized, false)
        else
          match can_release_funds env b with
          | none => (st, .err .pythonError, false)
          | some false =>
            match b.initialAmountPaidNgn with
            | none => (st, .err .pythonError, false)
            | some _ => (st, .err .releaseNotEligible, false)
          | some true =>
            match get_landlord_account_details env b with
            | none => (st, .err .missingBankDetails, false)
            | some d =>
              if !(optTruthy d.accountNumber) then
                (st, .err .missingBankDetails, false)
              else
                match d.bankName with
                | none => (st, .err .pythonError, false)
                | some bn =>
                  match lookupStr env.bankCodeMapping (bankNameKey bn) with
                  | none => (st, .err .unmappedBankCode, false)
                  | some _ =>
                    match gw with
                    | .success pref =>
                      (updateBooking st bid (mark_funds_released now pref),
                       .ok "funds_released", true)
                    | .rejected msg => (st, .err (.gatewayRejected msg), true)
                    | .netError => (st, .err .gatewayNetError, true)

/-- The initiate_payment view (payments/views.py): the direct hotel
payment flow. Dates and room required, check-out strictly after
check-in, amount = nightly rate times nights, HotelBooking created
pending, then the gateway configuration is checked (the record is
deleted when absent) and the charge is initiated (the record is deleted
on gateway rejection; a network error is caught by the blanket handler
and the record is kept). -/
def initiate_payment (env : Env) (gw : ChargeOutcome) (now : Nat) (st : State)
    (u : Nat) (roomId : Option Nat) (ci co : Option Int) : State × Resp :=
  match roomId, ci, co with
  | some rid, some cin, some cout =>
    if cout ≤ cin then (st, .err .invalidDateRange)
    else
      match env.roomTypes.find? (fun r => r.id == rid) with
      | none => (st, .err .roomTypeNotFound)
      | some room =>
        let nights : Int := cout - cin
        let amount := room.pricePerNight * (nights : Rat)
        let hid := st.nextPaymentId
        let hb : HotelBooking :=
          { id := hid, userId := u, roomId := rid, checkIn := cin, checkOut := cout,
            amountPaidNgn := amount, status := .pending,
            transactionRef := "RMN_" ++ toString hid }
        let st1 : State :=
          { st with hotelBookings := st.hotelBookings ++ [hb],
                    nextPaymentId := hid + 1 }
        if !env.squadConfigured then
          ({ st1 with hotelBookings := st1.hotelBookings.filter (fun h => h.id != hid) },
           .err .gatewayMisconfigured)
        else
          match gw with
          | .success url => (st1, .ok ("checkout_" ++ url))
          | .rejected msg =>
            ({ st1 with hotelBookings := st1.hotelBookings.filter (fun h => h.id != hid) },
             .err (.gatewayRejected msg))
          | .netError => (st1, .err .pythonError)
  | _, _, _ => (st, .err .missingFields)

/-- Acknowledgment of the POST webhook handler. -/
inductive PostAck where
  | okAck
  | ignoredAck
deriving DecidableEq, Repr

/-- Page rendered by the GET browser-redirect variant of the webhook. -/
inductive GetAck where
  | hotelPage
  | leasePage
  | notFoundPage
  | invalidPage
deriving DecidableEq, Repr

/-- The POST branch of squad_webhook (payments/views.py): on the
charge_successful event with transaction_status Success, the hotel
bookings are checked first by transaction reference, then the lease
payments; an unpaid match is marked paid, and when a newly-paid lease
payment is linked to a Booking still in saved status that Booking is
advanced to paid_pending_confirmation. Everything else is acknowledged
and ignored. -/
def squad_webhook_post (now : Nat) (st : State) (event txStatus ref : String) :
    State × PostAck :=
  if !(event == "charge_successful" && txStatus == "Success") then
    (st, .ignoredAck)
  else
    match st.hotelBookings.find? (fun h => h.transactionRef == ref) with
    | some hb =>
      if hb.status != .paid then
        ({ st with hotelBookings := st.hotelBookings.map (fun h =>
             if h.id == hb.id then { h with status := .paid } else h) },
         .okAck)
      else (st, .okAck)
    | none =>
      match st.leasePayments.find? (fun p => p.transactionRef == ref) with
      | some lp =>
        if lp.status != .paid then
          let st1 : State :=
            { st with leasePayments := st.leasePayments.map (fun p =>
                if p.id == lp.id then { p with status := .paid } else p) }
          let st2 : State :=
            match st1.bookings.find? (fun b => b.leasePayment == some lp.id) with
            | some rb =>
              if rb.status == .saved then
                updateBooking st1 rb.id (fun b =>
                  { b with status := .paidPendingConfirmation, updatedAt := now })
              else st1
            | none => st1
          (st2, .okAck)
        else (st, .okAck)
      | none => (st, .ignoredAck)

/-- The GET browser-redirect branch of squad_webhook (payments/views.py):
given a reference query parameter it performs the same record mutations
as the POST success branch (hotel bookings checked first, then lease
payments, the linked saved Booking advanced) and renders an HTML page. -/
def squad_webhook_get (now : Nat) (st : State) (ref : Option String) :
    State × GetAck :=
  match ref with
  | none => (st, .invalidPage)
  | some r =>
    match st.hotelBookings.find? (fun h => h.transactionRef == r) with
    | some hb =>
      if hb.status != .paid then
        ({ st with hotelBookings := st.hotelBookings.map (fun h =>
             if h.id == hb.id then { h with status := .paid } else h) },
         .hotelPage)
      else (st, .hotelPage)
    | none =>
      match st.leasePayments.find? (fun p => p.transactionRef == r) with
      | some lp =>
        if lp.status != .paid then
          let st1 : State :=
            { st with leasePayments := st.leasePayments.map (fun p =>
                if p.id == lp.id then { p with status := .paid } else p) }
          let st2 : State :=
            match st1.bookings.find? (fun b => b.leasePayment == some lp.id) with
            | some rb =>
              if rb.status == .saved then
                updateBooking st1 rb.id (fun b =>
                  { b with status := .paidPendingConfirmation, updatedAt := now })
              else st1
            | none => st1
          (st2, .leasePage)
        else (st, .leasePage)
      | none => (st, .notFoundPage)

/-- An inbound request: one user-facing operation or webhook delivery,
with the gateway outcomes it would observe. -/
inductive Op where
  | save (u : Nat) (lt : LType) (lid : Nat) (ci co : Option Int)
  | initiate (gw : ChargeOutcome) (u : Nat) (lt : LType) (lid : Nat)
      (pt : String) (ci co : Option Int) (room : Option Nat)
  | confirm (u : Nat) (bid : Nat)
  | cancel (u : Nat) (bid : Nat)
  | refund (u : Nat) (bid : Nat)
  | release (gw : DisburseOutcome) (u : Nat) (bid : Nat)
  | payInit (gw : ChargeOutcome) (u : Nat) (room : Option Nat) (ci co : Option Int)
  | whPost (event txStatus ref : String)
  | whGet (ref : Option String)
deriving Repr

/-- The state reached by handling one inbound request. -/
def applyOp (env : Env) (now : Nat) (st : State) : Op → State
  | .save u lt lid ci co => (save_booking env now st u lt lid ci co).1
  | .initiate gw u lt lid pt ci co room =>
    (initiate_lease_payment env gw now st u lt lid pt ci co room).1
  | .confirm u bid => (confirm_booking env now st u bid).1
  | .cancel u bid => (cancel_booking now st u bid).1
  | .refund u bid => (request_refund now st u bid).1
  | .release gw u bid => (release_funds env gw now st u bid).1
  | .payInit gw u room ci co => (initiate_payment env gw now st u room ci co).1
  | .whPost e t r => (squad_webhook_post now st e t r).1
  | .whGet r => (squad_webhook_get now st r).1

/-- List-level form of the uniqueness invariant: any two saved bookings
with the same (user, listing type, listing id) are the same row. -/
def savedUniqueL (l : List Booking) : Prop :=
  ∀ b1 ∈ l, ∀ b2 ∈ l,
    b1.status = .saved → b2.status = .saved →
    b1.userId = b2.userId → b1.listingType = b2.listingType →
    b1.listingId = b2.listingId → b1 = b2

/-- At most one saved booking per (user, listing type, listing id). -/
def savedUniqueState (st : State) : Prop := savedUniqueL st.bookings

/-- List-level form of the funds-released invariant. -/
def fundsInvL (l : List Booking) : Prop :=
  ∀ b ∈ l, b.fundsReleased = true →
    b.status = .confirmed ∧ b.releaseStatus = .released

/-- A released booking is confirmed with release status released. -/
def fundsInvState (st : State) : Prop := fundsInvL st.bookings

/-- Primary keys of the booking table are unique (two rows with the same
id coincide); guaranteed by the database. -/
def idsUniqueL (l : List Booking) : Prop :=
  ∀ b1 ∈ l, ∀ b2 ∈ l, b1.id = b2.id → b1 = b2

/-- State-level primary-key uniqueness for bookings. -/
def idsUniqueState (st : State) : Prop := idsUniqueL st.bookings

/-- Demonstration environment: landlord listing 1 (rent 50000, one-year
term, verified gtb account, owned by user 2), landlord listing 2 (rent
50000, six-month term), agent listing 4 with an unsupported weekly term,
hotel listing 7 owned by user 5 with room type 3 at 20000 per night, a
bank-code mapping entry for gtb, and a configured gateway. -/
def demoEnv : Env :=
  { landlordListings :=
      [(1, { ownerId := 2, monthlyRent := some 50000,
             leaseTermPreference := some "1_year",
             ownerBankName := some "gtb",
             ownerAccountNumber := some "0123456789",
             ownerAccountName := some "Demo Owner", bankVerified := true }),
       (2, { ownerId := 2, monthlyRent := some 50000,
             leaseTermPreference := some "6_months",
             ownerBankName := some "gtb",
             ownerAccountNumber := some "0123456789",
             ownerAccountName := some "Demo Owner", bankVerified := true })],
    agentListings :=
      [(4, { ownerId := 6, monthlyRent := some 30000,
             leaseTermPreference := some "weekly",
             ownerBankName := none, ownerAccountNumber := none,
             ownerAccountName := none, bankVerified := false })],
    hotelListings := [(7, { ownerId := 5 })],
    roomTypes := [{ id := 3, hotelId := 7, pricePerNight := 20000 }],
    bankCodeMapping := [("gtb", "058")],
    squadConfigured := true }

/-- The empty persistent state. -/
def emptyState : State :=
  { bookings := [], leasePayments := [], hotelBookings := [],
    nextBookingId := 1, nextPaymentId := 1 }

/-- The request sequence refuting the claimed active-booking uniqueness:
save an intent, then initiate payment twice for the same pair. -/
def c1Ops : List Op :=
  [.save 1 .landlord 1 none none,
   .initiate (.success "u") 1 .landlord 1 "first_month_rent" none none none,
   .initiate (.success "u") 1 .landlord 1 "first_month_rent" none none none]

/-- The state reached by `c1Ops` from the empty state. -/
def c1State3 : State := c1Ops.foldl (applyOp demoEnv 0) emptyState

/-- The saved booking created by the first request of `c1Ops`. -/
def c1SavedBooking : Booking := newSavedBooking 0 1 1 .landlord 1 none none

/-- The state holding only the saved booking of `c1Ops`. -/
def c1State1 : State :=
  applyOp demoEnv 0 emptyState (.save 1 .landlord 1 none none)

/-- A confirmed booking of landlord listing 1, paid 50000, funds not yet
released, used to exercise release_funds. -/
def c2Booking : Booking :=
  { id := 9, userId := 1, listingType := .landlord, listingId := 1,
    initialAmountPaidNgn := some 50000, paymentType := some "first_month_rent",
    status := .confirmed, refundStatus := .noneYet, releaseStatus := .pending,
    refundProcessedAt := none, releasedAt := none, payoutRef := none,
    fundsReleased := false, checkInDate := none, checkOutDate := none,
    leasePayment := some 1, createdAt := 0, updatedAt := 100 }

/-- State containing only `c2Booking`. -/
def c2State : State :=
  { bookings := [c2Booking], leasePayments := [], hotelBookings := [],
    nextBookingId := 10, nextPaymentId := 2 }

/-- A booking awaiting confirmation (paid 50000 on landlord listing 1,
last status change at time 100). -/
def c4Booking : Booking :=
  { c2Booking with status := .paidPendingConfirmation }

/-- State containing only `c4Booking`. -/
def c4State : State :=
  { bookings := [c4Booking], leasePayments := [], hotelBookings := [],
    nextBookingId := 10, nextPaymentId := 2 }

/-- The demonstration environment with the Squad credentials absent. -/
def offEnv : Env := { demoEnv with squadConfigured := false }

theorem aux_listingExists_of_rent {env : Env} {lt : LType} {lid : Nat}
    {L : RentalListing} (h : rentListingFor env lt lid = some L) :
    listingExists env lt lid = true := by
  cases lt with
  | landlord => simp only [rentListingFor] at h; simp [listingExists, h]
  | agent => simp only [rentListingFor] at h; simp [listingExists, h]
  | hotel => simp [rentListingFor] at h

theorem aux_leaseAmount_full_eval (env : Env) (lt : LType) (lid : Nat) :
    leaseAmount env lt lid "full_lease_payment" =
      (match rentListingFor env lt lid with
       | none => .error .pythonError
       | some l =>
         match l.monthlyRent with
         | none => .error .pythonError
         | some r =>
           match l.leaseTermPreference.bind lease_term_to_months with
           | none => .error .unsupportedLeaseTerm
           | some m => .ok (r * (m : Rat))) := rfl

theorem aux_initiateAmount_nonhotel {env : Env} {lt : LType} {lid : Nat}
    (pt : String) (ci co : Option Int) (room : Option Nat)
    (h : (lt == LType.hotel) = false) :
    initiateAmount env lt lid pt ci co room = leaseAmount env lt lid pt := by
  unfold initiateAmount
  cases hla : leaseAmount env lt lid pt <;> simp [h]

theorem aux_linkOrCreate_leasePayments (now : Nat) (st : State) (u : Nat)
    (lt : LType) (lid : Nat) (pt : String) (ci co : Option Int) (amount : Rat)
    (pid : Nat) :
    (linkOrCreateBooking now st u lt lid pt ci co amount pid).leasePayments
      = st.leasePayments := by
  unfold linkOrCreateBooking
  split <;> rfl

theorem aux_initiateCharge_ok (env : Env) (url : String) (now : Nat) (st : State)
    (u : Nat) (lt : LType) (lid : Nat) (pt : String) (ci co : Option Int)
    (amount : Rat) (owner : Nat) (hsq : env.squadConfigured = true) :
    initiateCharge env (.success url) now st u lt lid pt ci co amount owner
      = (linkOrCreateBooking now
           { st with
               leasePayments := st.leasePayments ++
                 [newLeasePayment st.nextPaymentId u lt lid pt amount owner],
               nextPaymentId := st.nextPaymentId + 1 }
           u lt lid pt ci co amount st.nextPaymentId,
         .ok ("checkout_" ++ url)) := by
  unfold initiateCharge
  rw [hsq]
  rfl

theorem aux_initiate_ok (env : Env) (url : String) (now : Nat) (st : State)
    (u : Nat) (lt : LType) (lid : Nat) (pt : String) (ci co : Option Int)
    (room : Option Nat) (amount : Rat) (owner : Nat)
    (hpt : validPaymentTypes.contains pt = true)
    (hex : listingExists env lt lid = true)
    (hAm : initiateAmount env lt lid pt ci co room = .ok amount)
    (hown : listingOwner env lt lid = some owner)
    (hsq : env.squadConfigured = true) :
    initiate_lease_payment env (.success url) now st u lt lid pt ci co room
      = (linkOrCreateBooking now
           { st with
               leasePayments := st.leasePayments ++
                 [newLeasePayment st.nextPaymentId u lt lid pt amount owner],
               nextPaymentId := st.nextPaymentId + 1 }
           u lt lid pt ci co amount st.nextPaymentId,
         .ok ("checkout_" ++ url)) := by
  unfold initiate_lease_payment
  rw [hpt, hex]
  simp only [Bool.not_true, Bool.false_eq_true, if_false]
  rw [hAm]
  dsimp only
  rw [hown]
  dsimp only
  exact aux_initiateCharge_ok env url now st u lt lid pt ci co amount owner hsq

theorem aux_initiate_amount_error (env : Env) (gw : ChargeOutcome) (now : Nat)
    (st : State) (u : Nat) (lt : LType) (lid : Nat) (pt : String)
    (ci co : Option Int) (room : Option Nat) (e : ErrKind)
    (hpt : validPaymentTypes.contains pt = true)
    (hex : listingExists env lt lid = true)
    (hAm : initiateAmount env lt lid pt ci co room = .error e) :
    initiate_lease_payment env gw now st u lt lid pt ci co room = (st, .err e) := by
  unfold initiate_lease_payment
  rw [hpt, hex]
  simp only [Bool.not_true, Bool.false_eq_true, if_false]
  rw [hAm]

/-- C6: with payment type full_lease_payment, initiate_lease_payment
records amount = monthly_rent times the month count of the fixed lease
term mapping (monthly 1, 6_months 6, 1_year 12, 2_years 24) on the
LeasePayment it creates, and for a lease term outside the mapping it
fails with the unsupported-lease-term error creating nothing. -/
theorem c6_full_lease_amount :
    (∀ (env : Env) (now : Nat) (st : State) (u : Nat) (lt : LType) (lid : Nat)
       (L : RentalListing) (r : Rat) (t : String) (m : Nat) (url : String)
       (ci co : Option Int) (room : Option Nat),
       rentListingFor env lt lid = some L →
       L.monthlyRent = some r → L.leaseTermPreference = some t →
       lease_term_to_months t = some m → env.squadConfigured = true →
       (initiate_lease_payment env (.success url) now st u lt lid
           "full_lease_payment" ci co room).1.leasePayments
         = st.leasePayments ++
           [newLeasePayment st.nextPaymentId u lt lid "full_lease_payment"
              (r * (m : Rat)) L.ownerId]) ∧
    (∀ (env : Env) (gw : ChargeOutcome) (now : Nat) (st : State) (u : Nat)
       (lt : LType) (lid : Nat) (L : RentalListing) (r : Rat) (t : String)
       (ci co : Option Int) (room : Option Nat),
       rentListingFor env lt lid = some L →
       L.monthlyRent = some r → L.leaseTermPreference = some t →
       lease_term_to_months t = none →
       initiate_lease_payment env gw now st u lt lid "full_lease_payment" ci co room
         = (st, .err .unsupportedLeaseTerm)) := by
  have hnh : ∀ lt : LType, lt ≠ LType.hotel → (lt == LType.hotel) = false := by
    intro lt h
    cases lt <;> simp_all
  constructor
  · intro env now st u lt lid L r t m url ci co room hL hr ht hm hsq
    have hex : listingExists env lt lid = true := aux_listingExists_of_rent hL
    have hlt : lt ≠ LType.hotel := by
      intro h
      subst h
      simp [rentListingFor] at hL
    have hAm : initiateAmount env lt lid "full_lease_payment" ci co room
        = .ok (r * (m : Rat)) := by
      rw [aux_initiateAmount_nonhotel _ _ _ _ (hnh lt hlt),
        aux_leaseAmount_full_eval, hL]
      simp [hr, ht, hm]
    have hown : listingOwner env lt lid = some L.ownerId := by
      cases lt with
      | hotel => exact absurd rfl hlt
      | landlord =>
        simp only [rentListingFor] at hL
        simp [listingOwner, hL]
      | agent =>
        simp only [rentListingFor] at hL
        simp [listingOwner, hL]
    rw [aux_initiate_ok env url now st u lt lid "full_lease_payment" ci co room
      (r * (m : Rat)) L.ownerId rfl hex hAm hown hsq]
    rw [aux_linkOrCreate_leasePayments]
  · intro env gw now st u lt lid L r t ci co room hL hr ht hm
    have hex : listingExists env lt lid = true := aux_listingExists_of_rent hL
    have hlt : lt ≠ LType.hotel := by
      intro h
      subst h
      simp [rentListingFor] at hL
    have hAm : initiateAmount env lt lid "full_lease_payment" ci co room
        = .error .unsupportedLeaseTerm := by
      rw [aux_initiateAmount_nonhotel _ _ _ _ (hnh lt hlt),
        aux_leaseAmount_full_eval, hL]
      simp [hr, ht, hm]
    exact aux_initiate_amount_error env gw now st u lt lid "full_lease_payment"
      ci co room .unsupportedLeaseTerm rfl hex hAm

/-- C6 witness: the demonstration listings give 50000 x 12 = 600000 for
a one-year term, 50000 x 6 = 300000 for a six-month term, and the
weekly-term agent listing is rejected with unsupported-lease-term. -/
theorem c6_full_lease_amount_witness :
    (initiate_lease_payment demoEnv (.success "u") 0 emptyState 1 .landlord 1
        "full_lease_payment" none none none).1.leasePayments
      = [{ id := 1, listingType := .landlord, listingId := 1, tenant := 1,
           landlordOrAgent := 2, amountPaidNgn := 600000,
           paymentType := "full_lease_payment", status := .pending,
           transactionRef := "LEASEPAY_1" }] ∧
    (initiate_lease_payment demoEnv (.success "u") 0 emptyState 1 .landlord 2
        "full_lease_payment" none none none).1.leasePayments
      = [{ id := 1, listingType := .landlord, listingId := 2, tenant := 1,
           landlordOrAgent := 2, amountPaidNgn := 300000,
           paymentType := "full_lease_payment", status := .pending,
           transactionRef := "LEASEPAY_1" }] ∧
    initiate_lease_payment demoEnv (.success "u") 0 emptyState 1 .agent 4
        "full_lease_payment" none none none
      = (emptyState, .err .unsupportedLeaseTerm) :=
  ⟨(c6_full_lease_amount.1 demoEnv 0 emptyState 1 .landlord 1 _ 50000 "1_year" 12
      "u" none none none rfl rfl rfl rfl rfl).trans
      (by simp only [emptyState, newLeasePayment, List.nil_append,
            List.cons.injEq, and_true, LeasePayment.mk.injEq]
          norm_num
          decide),
   (c6_full_lease_amount.1 demoEnv 0 emptyState 1 .landlord 2 _ 50000 "6_months" 6
      "u" none none none rfl rfl rfl rfl rfl).trans
      (by simp only [emptyState, newLeasePayment, List.nil_append,
            List.cons.injEq, and_true, LeasePayment.mk.injEq]
          norm_num
          decide),
   c6_full_lease_amount.2 demoEnv (.success "u") 0 emptyState 1 .agent 4 _ 30000
     "weekly" none none none rfl rfl rfl rfl⟩

/-- C7: hotel payments charge nightly rate times nights, where nights is
the day difference check_out - check_in, and a request with check_out at
or before check_in is rejected with the invalid-date-range error before
any record is created — both in the direct hotel payment flow
(initiate_payment) and in the hotel branch of initiate_lease_payment. -/
theorem c7_hotel_nights :
    (∀ (env : Env) (now : Nat) (st : State) (u rid : Nat) (ci co : Int)
       (room : RoomT) (url : String),
       env.roomTypes.find? (fun r => r.id == rid) = some room →
       ci < co → env.squadConfigured = true →
       (initiate_payment env (.success url) now st u (some rid) (some ci)
           (some co)).1.hotelBookings
         = st.hotelBookings ++
           [{ id := st.nextPaymentId, userId := u, roomId := rid, checkIn := ci,
              checkOut := co,
              amountPaidNgn := room.pricePerNight * ((co - ci : Int) : Rat),
              status := .pending,
              transactionRef := "RMN_" ++ toString st.nextPaymentId }]) ∧
    (∀ (env : Env) (gw : ChargeOutcome) (now : Nat) (st : State) (u rid : Nat)
       (ci co : Int), co ≤ ci →
       initiate_payment env gw now st u (some rid) (some ci) (some co)
         = (st, .err .invalidDateRange)) ∧
    (∀ (env : Env) (gw : ChargeOutcome) (now : Nat) (st : State) (u lid : Nat)
       (ci co : Int) (rtid : Nat), co ≤ ci →
       listingExists env .hotel lid = true →
       initiate_lease_payment env gw now st u .hotel lid "booking_fee"
           (some ci) (some co) (some rtid)
         = (st, .err .invalidDateRange)) := by
  refine ⟨?_, ?_, ?_⟩
  · intro env now st u rid ci co room url hroom hlt hsq
    unfold initiate_payment
    dsimp only
    rw [if_neg (not_le.mpr hlt), hroom]
    dsimp only
    rw [hsq]
    rfl
  · intro env gw now st u rid ci co hle
    unfold initiate_payment
    dsimp only
    rw [if_pos hle]
  · intro env gw now st u lid ci co rtid hle hex
    have hAm : initiateAmount env .hotel lid "booking_fee" (some ci) (some co)
        (some rtid) = .error .invalidDateRange := by
      unfold initiateAmount
      rw [show leaseAmount env .hotel lid "booking_fee" = .ok 10000 from rfl]
      dsimp only
      unfold hotelStayAmount
      dsimp only
      rw [if_pos hle]
      rfl
    exact aux_initiate_amount_error env gw now st u .hotel lid "booking_fee"
      (some ci) (some co) (some rtid) .invalidDateRange rfl hex hAm

/-- C7 witness: check-in day 0 and check-out day 3 give 3 nights at
20000 per night (60000 total) on the demonstration room; swapping the
dates is rejected with invalid-date-range by both entry points. -/
theorem c7_hotel_nights_witness :
    (initiate_payment demoEnv (.success "u") 0 emptyState 1 (some 3) (some 0)
        (some 3)).1.hotelBookings
      = [{ id := 1, userId := 1, roomId := 3, checkIn := 0, checkOut := 3,
           amountPaidNgn := 60000, status := .pending,
           transactionRef := "RMN_1" }] ∧
    initiate_payment demoEnv (.success "u") 0 emptyState 1 (some 3) (some 3)
        (some 0) = (emptyState, .err .invalidDateRange) ∧
    initiate_lease_payment demoEnv (.success "u") 0 emptyState 1 .hotel 7
        "booking_fee" (some 3) (some 0) (some 3)
      = (emptyState, .err .invalidDateRange) :=
  ⟨(c7_hotel_nights.1 demoEnv 0 emptyState 1 3 0 3
      { id := 3, hotelId := 7, pricePerNight := 20000 } "u" rfl (by decide)
      rfl).trans
      (by simp only [emptyState, List.nil_append, List.cons.injEq, and_true,
            HotelBooking.mk.injEq]
          norm_num
          decide),
   c7_hotel_nights.2.1 demoEnv (.success "u") 0 emptyState 1 3 3 0 (by decide),
   c7_hotel_nights.2.2 demoEnv (.success "u") 0 emptyState 1 7 3 0 3 (by decide)
     rfl⟩

/-- C8 counterexample: a caller who owns no booking gets a 403
not-authorized from release_funds when booking 9 exists (owned by
someone else) but a 404 not-found when it does not, so the two errors
reveal whether the booking exists. -/
theorem c8_ownership_counterexample :
    (release_funds demoEnv (.success none) 0 c2State 3 9).2.1
      = .err .notAuthorized ∧
    (release_funds demoEnv (.success none) 0 emptyState 3 9).2.1
      = .err .bookingNotFound ∧
    Resp.err .notAuthorized ≠ Resp.err .bookingNotFound := by
  refine ⟨by decide, by decide, by decide⟩

/-- C8 amended: confirm_booking, cancel_booking and request_refund fetch
the booking by id and owner together, so a caller who does not own the
booking receives the same not-found error whether or not a booking with
that id exists; release_funds, by contrast, answers not-found only for a
missing id (an existing foreign booking gets not-authorized, as the
counterexample shows). -/
theorem c8_ownership_amended :
    (∀ (env : Env) (now : Nat) (st : State) (u bid : Nat),
       (∀ b ∈ st.bookings, b.id = bid → b.userId ≠ u) →
       confirm_booking env now st u bid = (st, .err .bookingNotFound) ∧
       cancel_booking now st u bid = (st, .err .bookingNotFound) ∧
       request_refund now st u bid = (st, .err .bookingNotFound)) ∧
    (∀ (env : Env) (gw : DisburseOutcome) (now : Nat) (st : State) (u bid : Nat),
       st.bookings.find? (fun b => b.id == bid) = none →
       release_funds env gw now st u bid = (st, .err .bookingNotFound, false)) := by
  constructor
  · intro env now st u bid h
    have hf : st.bookings.find? (fun b => b.id == bid && b.userId == u) = none := by
      rw [List.find?_eq_none]
      intro b hb
      simp only [Bool.and_eq_true, beq_iff_eq, not_and]
      intro hid hu
      exact h b hb hid hu
    refine ⟨?_, ?_, ?_⟩
    · unfold confirm_booking
      rw [hf]
    · unfold cancel_booking
      rw [hf]
    · unfold request_refund
      rw [hf]
  · intro env gw now st u bid hf
    unfold release_funds
    rw [hf]

/-- C8 witness: user 3 owns nothing in the demonstration state, so all
three owner-fetching operations answer not-found on booking 9, and
release_funds answers not-found on the empty state. -/
theorem c8_ownership_amended_witness :
    (confirm_booking demoEnv 0 c2State 3 9 = (c2State, .err .bookingNotFound) ∧
     cancel_booking 0 c2State 3 9 = (c2State, .err .bookingNotFound) ∧
     request_refund 0 c2State 3 9 = (c2State, .err .bookingNotFound)) ∧
    release_funds demoEnv (.success none) 0 emptyState 3 9
      = (emptyState, .err .bookingNotFound, false) :=
  ⟨c8_ownership_amended.1 demoEnv 0 c2State 3 9 (by decide),
   c8_ownership_amended.2 demoEnv (.success none) 0 emptyState 3 9 (by decide)⟩

theorem aux_beq_hotel_false {lt : LType} (h : lt ≠ LType.hotel) :
    (lt == LType.hotel) = false := by
  cases lt <;> simp_all

theorem aux_listingOwner_of_rent {env : Env} {lt : LType} {lid : Nat}
    {L : RentalListing} (h : rentListingFor env lt lid = some L) :
    listingOwner env lt lid = some L.ownerId := by
  cases lt with
  | landlord => simp only [rentListingFor] at h; simp [listingOwner, h]
  | agent => simp only [rentListingFor] at h; simp [listingOwner, h]
  | hotel => simp [rentListingFor] at h

theorem aux_leaseAmount_first_eval (env : Env) (lt : LType) (lid : Nat) :
    leaseAmount env lt lid "first_month_rent" =
      (match rentListingFor env lt lid with
       | none => .error .pythonError
       | some l =>
         match l.monthlyRent with
         | none => .error .pythonError
         | some r => .ok r) := rfl

theorem aux_find?_map_pred {α : Type} (l : List α) (f : α → α) (p : α → Bool)
    (h : ∀ a, p (f a) = p a) :
    (l.map f).find? p = (l.find? p).map f := by
  rw [List.find?_map, show (p ∘ f) = p from funext h]

theorem aux_find?_updateBooking (st : State) (bid : Nat) (f : Booking → Booking)
    (b0 : Booking) (hid : ∀ x, (f x).id = x.id)
    (hfind : st.bookings.find? (fun b => b.id == bid) = some b0) :
    (updateBooking st bid f).bookings.find? (fun b => b.id == bid)
      = some (f b0) := by
  unfold updateBooking
  dsimp only
  rw [aux_find?_map_pred _ _ _
    (fun a => by by_cases hx : (a.id == bid) = true <;> simp [hx, hid])]
  rw [hfind]
  have hpb := List.find?_some hfind
  dsimp only [Option.map]
  rw [if_pos hpb]

theorem aux_filter_ne_append (l : List LeasePayment) (lp : LeasePayment)
    (pid : Nat) (hfresh : ∀ p ∈ l, p.id ≠ pid) (hlp : lp.id = pid) :
    (l ++ [lp]).filter (fun p => p.id != pid) = l := by
  rw [List.filter_append]
  have h1 : l.filter (fun p => p.id != pid) = l :=
    List.filter_eq_self.mpr (by intro p hp; simpa using hfresh p hp)
  have h2 : [lp].filter (fun p => p.id != pid) = [] := by simp [hlp]
  rw [h1, h2, List.append_nil]

theorem aux_initiate_misconf (env : Env) (gw : ChargeOutcome) (now : Nat)
    (st : State) (u : Nat) (lt : LType) (lid : Nat) (pt : String)
    (ci co : Option Int) (room : Option Nat) (amount : Rat) (owner : Nat)
    (hpt : validPaymentTypes.contains pt = true)
    (hex : listingExists env lt lid = true)
    (hAm : initiateAmount env lt lid pt ci co room = .ok amount)
    (hown : listingOwner env lt lid = some owner)
    (hsq : env.squadConfigured = false) :
    initiate_lease_payment env gw now st u lt lid pt ci co room
      = (deleteLeasePayment
           (linkOrCreateBooking now
             { st with
                 leasePayments := st.leasePayments ++
                   [newLeasePayment st.nextPaymentId u lt lid pt amount owner],
                 nextPaymentId := st.nextPaymentId + 1 }
             u lt lid pt ci co amount st.nextPaymentId)
           st.nextPaymentId,
         .err .gatewayMisconfigured) := by
  unfold initiate_lease_payment
  rw [hpt, hex]
  simp only [Bool.not_true, Bool.false_eq_true, if_false]
  rw [hAm]
  dsimp only
  rw [hown]
  dsimp only
  unfold initiateCharge
  rw [hsq]
  rfl

theorem aux_linkOrCreate_single (now : Nat) (st : State) (u : Nat) (lt : LType)
    (lid : Nat) (pt : String) (ci co : Option Int) (amount : Rat) (pid : Nat)
    (b0 : Booking)
    (hfil : st.bookings.filter (matchesSaved u lt lid) = [b0]) :
    linkOrCreateBooking now st u lt lid pt ci co amount pid
      = updateBooking st b0.id (linkSavedBooking now pid lt pt ci co amount) := by
  unfold linkOrCreateBooking
  rw [hfil]

/-- C4: confirm_booking succeeds only for the booking owner when the
status is exactly paid_pending_confirmation and at most 48 hours have
passed since the last status change; at 48 hours plus one second it
fails with the confirmation-window-expired error and at 47h59m59s it
succeeds. -/
theorem c4_confirmation_window :
    (∀ (env : Env) (now : Nat) (st : State) (u bid : Nat),
       (confirm_booking env now st u bid).2.isOk = true →
       ∃ b ∈ st.bookings, b.id = bid ∧ b.userId = u ∧
         b.status = .paidPendingConfirmation ∧ now - b.updatedAt ≤ 48 * 3600) ∧
    (∀ (env : Env) (st : State) (u bid : Nat) (b : Booking) (a : Rat),
       st.bookings.find? (fun x => x.id == bid && x.userId == u) = some b →
       b.status = .paidPendingConfirmation →
       b.initialAmountPaidNgn = some a →
       confirm_booking env (b.updatedAt + (48 * 3600 + 1)) st u bid
         = (st, .err .confirmationWindowExpired) ∧
       (confirm_booking env (b.updatedAt + (48 * 3600 - 1)) st u bid).2.isOk
         = true) := by
  constructor
  · intro env now st u bid h
    unfold confirm_booking at h
    cases hf : st.bookings.find? (fun b => b.id == bid && b.userId == u) with
    | none => rw [hf] at h; simp [Resp.isOk] at h
    | some b =>
      rw [hf] at h
      dsimp only at h
      have hmem := List.mem_of_find?_eq_some hf
      have hpred := List.find?_some hf
      simp only [Bool.and_eq_true, beq_iff_eq] at hpred
      by_cases hs : b.status = BStatus.paidPendingConfirmation
      · by_cases hw : is_in_confirmation_window now b = true
        · refine ⟨b, hmem, hpred.1, hpred.2, hs, ?_⟩
          simp only [is_in_confirmation_window, hs, Bool.and_eq_true,
            beq_self_eq_true, true_and, decide_eq_true_eq] at hw
          exact hw
        · rw [if_neg (by simp [hs]), if_pos (by simp [hw])] at h
          simp [Resp.isOk] at h
      · rw [if_pos (by simp [hs])] at h
        simp [Resp.isOk] at h
  · intro env st u bid b a hf hs ha
    have hw1 : is_in_confirmation_window (b.updatedAt + (48 * 3600 + 1)) b
        = false := by
      simp only [is_in_confirmation_window, hs, beq_self_eq_true, Bool.true_and]
      simp only [decide_eq_false_iff_not]
      omega
    have hw2 : is_in_confirmation_window (b.updatedAt + (48 * 3600 - 1)) b
        = true := by
      simp only [is_in_confirmation_window, hs, beq_self_eq_true, Bool.true_and]
      simp only [decide_eq_true_eq]
      omega
    constructor
    · unfold confirm_booking
      rw [hf]
      dsimp only
      rw [if_neg (by simp [hs]), hw1, if_pos (by decide)]
    · unfold confirm_booking
      rw [hf]
      dsimp only
      rw [if_neg (by simp [hs]), hw2, if_neg (by decide)]
      rw [ha]
      dsimp only
      split
      · split
        · rfl
        · split
          · rfl
          · split
            · rfl
            · split
              · rfl
              · rfl
      · rfl

/-- C4 witness: the demonstration booking (last status change at time
100) is rejected with the window-expired error at 100 + 48h + 1s and
confirmed successfully at 100 + 48h - 1s. -/
theorem c4_confirmation_window_witness :
    confirm_booking demoEnv (100 + (48 * 3600 + 1)) c4State 1 9
      = (c4State, .err .confirmationWindowExpired) ∧
    (confirm_booking demoEnv (100 + (48 * 3600 - 1)) c4State 1 9).2.isOk
      = true :=
  c4_confirmation_window.2 demoEnv c4State 1 9 c4Booking 50000 rfl rfl rfl

/-- C9 (implicit): when the Squad credentials are missing,
initiate_lease_payment hard-deletes the just-created pending
LeasePayment (rather than marking it failed), while the Booking that the
same call advanced from saved to paid_pending_confirmation keeps that
status with its lease_payment reference nulled and its amount recorded —
it is not rolled back to saved and is left with no linked payment. -/
theorem c9_misconfigured_cleanup :
    ∀ (env : Env) (gw : ChargeOutcome) (now : Nat) (st : State) (u : Nat)
      (lt : LType) (lid : Nat) (L : RentalListing) (r : Rat) (b0 : Booking)
      (ci co : Option Int) (room : Option Nat),
      env.squadConfigured = false →
      rentListingFor env lt lid = some L →
      L.monthlyRent = some r →
      st.bookings.filter (matchesSaved u lt lid) = [b0] →
      st.bookings.find? (fun b => b.id == b0.id) = some b0 →
      (∀ p ∈ st.leasePayments, p.id ≠ st.nextPaymentId) →
      (initiate_lease_payment env gw now st u lt lid "first_month_rent"
          ci co room).2 = .err .gatewayMisconfigured ∧
      (initiate_lease_payment env gw now st u lt lid "first_month_rent"
          ci co room).1.leasePayments = st.leasePayments ∧
      ∃ bb, (initiate_lease_payment env gw now st u lt lid "first_month_rent"
          ci co room).1.bookings.find? (fun b => b.id == b0.id) = some bb ∧
        bb.status = .paidPendingConfirmation ∧ bb.leasePayment = none ∧
        bb.initialAmountPaidNgn = some r := by
  intro env gw now st u lt lid L r b0 ci co room hsq hL hr hfil hfind hfresh
  have hex : listingExists env lt lid = true := aux_listingExists_of_rent hL
  have hlt : lt ≠ LType.hotel := by
    intro h
    subst h
    simp [rentListingFor] at hL
  have hAm : initiateAmount env lt lid "first_month_rent" ci co room = .ok r := by
    rw [aux_initiateAmount_nonhotel _ _ _ _ (aux_beq_hotel_false hlt),
      aux_leaseAmount_first_eval, hL]
    simp [hr]
  have hown : listingOwner env lt lid = some L.ownerId :=
    aux_listingOwner_of_rent hL
  rw [aux_initiate_misconf env gw now st u lt lid "first_month_rent" ci co room
    r L.ownerId rfl hex hAm hown hsq]
  rw [aux_linkOrCreate_single now _ u lt lid "first_month_rent" ci co r
    st.nextPaymentId b0 (by exact hfil)]
  refine ⟨rfl, ?_, ?_⟩
  · exact aux_filter_ne_append st.leasePayments
      (newLeasePayment st.nextPaymentId u lt lid "first_month_rent" r L.ownerId)
      st.nextPaymentId hfresh rfl
  · have h1 := aux_find?_updateBooking
      { st with
          leasePayments := st.leasePayments ++
            [newLeasePayment st.nextPaymentId u lt lid "first_month_rent" r
               L.ownerId],
          nextPaymentId := st.nextPaymentId + 1 }
      b0.id
      (linkSavedBooking now st.nextPaymentId lt "first_month_rent" ci co r)
      b0 (fun _ => rfl) (by exact hfind)
    unfold deleteLeasePayment
    dsimp only
    rw [aux_find?_map_pred _ _ _
      (fun a => by
        by_cases hx : (a.leasePayment == some st.nextPaymentId) = true <;>
          simp [hx]), h1]
    refine ⟨_, rfl, ?_, ?_, ?_⟩ <;> simp [linkSavedBooking]

theorem aux_can_release_true {env : Env} {b : Booking}
    (h : can_release_funds env b = some true) :
    b.status = .confirmed ∧ b.fundsReleased = false ∧
    ∃ a, b.initialAmountPaidNgn = some a ∧ 0 < a := by
  unfold can_release_funds at h
  split at h
  · exact absurd h (by simp)
  · next hst =>
    have hs : b.status = .confirmed := by simpa using hst
    cases hma : b.initialAmountPaidNgn with
    | none => rw [hma] at h; simp at h
    | some a =>
      rw [hma] at h
      dsimp only at h
      split at h
      · exact absurd h (by simp)
      · next hle =>
        split at h
        · exact absurd h (by simp)
        · next hfr =>
          exact ⟨hs, by simpa using hfr, a, rfl, not_le.mp hle⟩

theorem aux_can_release_after_mark (env : Env) (now : Nat) (pref : Option String)
    (b : Booking) (a : Rat) (hs : b.status = .confirmed)
    (hma : b.initialAmountPaidNgn = some a) (hpos : 0 < a) :
    can_release_funds env (mark_funds_released now pref b) = some false := by
  unfold can_release_funds
  rw [if_neg (by
    simp [show (mark_funds_released now pref b).status = BStatus.confirmed
      from hs])]
  rw [show (mark_funds_released now pref b).initialAmountPaidNgn = some a
    from hma]
  dsimp only
  rw [if_neg (not_le.mpr hpos)]
  rw [if_pos (show (mark_funds_released now pref b).fundsReleased = true
    from rfl)]

/-- C2: the release guard demands a confirmed booking, unreleased funds
and a positive paid amount, and release_funds never disburses twice: a
second call on a booking whose first call succeeded answers the
release-not-eligible error without calling the gateway or changing the
booking. -/
theorem c2_release_funds_idempotent :
    (∀ (env : Env) (b : Booking), can_release_funds env b = some true →
       b.status = .confirmed ∧ b.fundsReleased = false ∧
       ∃ a, b.initialAmountPaidNgn = some a ∧ 0 < a) ∧
    (∀ (env : Env) (gw : DisburseOutcome) (now : Nat) (st : State) (u bid : Nat)
       (st1 : State) (g : Bool) (gw2 : DisburseOutcome) (now2 : Nat),
       release_funds env gw now st u bid = (st1, .ok "funds_released", g) →
       release_funds env gw2 now2 st1 u bid
         = (st1, .err .releaseNotEligible, false)) := by
  constructor
  · exact fun env b h => aux_can_release_true h
  · intro env gw now st u bid st1 g gw2 now2 h
    unfold release_funds at h
    cases hfind : st.bookings.find? (fun b => b.id == bid) with
    | none => rw [hfind] at h; exact absurd h (by simp)
    | some b =>
      rw [hfind] at h
      dsimp only at h
      split at h
      · exact absurd h (by simp)
      · next hexn =>
        have hex : listingExists env b.listingType b.listingId = true := by
          simpa using hexn
        cases hown : listingOwner env b.listingType b.listingId with
        | none => rw [hown] at h; exact absurd h (by simp)
        | some owner =>
          rw [hown] at h
          dsimp only at h
          split at h
          · exact absurd h (by simp)
          · next hueqn =>
            have hue : (u != owner) = false := by simpa using hueqn
            cases hcr : can_release_funds env b with
            | none => rw [hcr] at h; exact absurd h (by simp)
            | some cr =>
              rw [hcr] at h
              cases cr with
              | false =>
                dsimp only at h
                cases hma : b.initialAmountPaidNgn with
                | none => rw [hma] at h; exact absurd h (by simp)
                | some a => rw [hma] at h; exact absurd h (by simp)
              | true =>
                dsimp only at h
                obtain ⟨hs, hfr, a, hma, hpos⟩ := aux_can_release_true hcr
                cases hd : get_landlord_account_details env b with
                | none => rw [hd] at h; exact absurd h (by simp)
                | some d =>
                  rw [hd] at h
                  dsimp only at h
                  split at h
                  · exact absurd h (by simp)
                  · cases hbn : d.bankName with
                    | none => rw [hbn] at h; exact absurd h (by simp)
                    | some bn =>
                      rw [hbn] at h
                      dsimp only at h
                      cases hbc : lookupStr env.bankCodeMapping (bankNameKey bn)
                        with
                      | none => rw [hbc] at h; exact absurd h (by simp)
                      | some code =>
                        rw [hbc] at h
                        dsimp only at h
                        cases gw with
                        | rejected msg => exact absurd h (by simp)
                        | netError => exact absurd h (by simp)
                        | success pref =>
                          dsimp only at h
                          have h1 : updateBooking st bid
                              (mark_funds_released now pref) = st1 :=
                            congrArg Prod.fst h
                          subst h1
                          have hfind2 : (updateBooking st bid
                              (mark_funds_released now pref)).bookings.find?
                              (fun b => b.id == bid)
                              = some (mark_funds_released now pref b) :=
                            aux_find?_updateBooking st bid _ b (fun _ => rfl)
                              hfind
                          unfold release_funds
                          rw [hfind2]
                          dsimp only
                          rw [show listingExists env
                            (mark_funds_released now pref b).listingType
                            (mark_funds_released now pref b).listingId = true
                            from hex]
                          rw [if_neg (by decide)]
                          rw [show listingOwner env
                            (mark_funds_released now pref b).listingType
                            (mark_funds_released now pref b).listingId
                            = some owner from hown]
                          dsimp only
                          rw [hue, if_neg (by decide)]
                          rw [aux_can_release_after_mark env now pref b a hs hma
                            hpos]
                          dsimp only
                          rw [show (mark_funds_released now pref
                            b).initialAmountPaidNgn = some a from hma]

/-- C2 witness: releasing the demonstration confirmed booking succeeds
once; the immediate second call is rejected as not eligible, leaves the
state unchanged and does not reach the gateway. -/
theorem c2_release_funds_idempotent_witness :
    (c2Booking.status = .confirmed ∧ c2Booking.fundsReleased = false ∧
      ∃ a, c2Booking.initialAmountPaidNgn = some a ∧ 0 < a) ∧
    release_funds demoEnv (.rejected "x") 300
        (release_funds demoEnv (.success (some "PREF")) 200 c2State 2 9).1 2 9
      = ((release_funds demoEnv (.success (some "PREF")) 200 c2State 2 9).1,
         .err .releaseNotEligible, false) :=
  ⟨c2_release_funds_idempotent.1 demoEnv c2Booking (by decide),
   c2_release_funds_idempotent.2 demoEnv (.success (some "PREF")) 200 c2State
     2 9 (release_funds demoEnv (.success (some "PREF")) 200 c2State 2 9).1
     true (.rejected "x") 300 (by decide)⟩

/-- C3: delivering the same success webhook (charge_successful with
transaction_status Success) twice for one transaction reference performs
at most one transition: the second delivery changes nothing and returns
the same acknowledgment as the first. -/
theorem c3_webhook_idempotent :
    ∀ (now1 now2 : Nat) (st : State) (ref : String),
      (squad_webhook_post now2
          (squad_webhook_post now1 st "charge_successful" "Success" ref).1
          "charge_successful" "Success" ref).1
        = (squad_webhook_post now1 st "charge_successful" "Success" ref).1 ∧
      (squad_webhook_post now2
          (squad_webhook_post now1 st "charge_successful" "Success" ref).1
          "charge_successful" "Success" ref).2
        = (squad_webhook_post now1 st "charge_successful" "Success" ref).2 := by
  intro now1 now2 st ref
  cases hh : st.hotelBookings.find? (fun h => h.transactionRef == ref) with
  | some hb =>
    by_cases hst : (hb.status != HBStatus.paid) = true
    · have e1 : squad_webhook_post now1 st "charge_successful" "Success" ref
          = ({ st with hotelBookings := st.hotelBookings.map (fun h =>
                 if h.id == hb.id then { h with status := .paid } else h) },
             .okAck) := by
        unfold squad_webhook_post
        rw [if_neg (by decide), hh]
        dsimp only
        rw [if_pos hst]
      have hh2 : ({ st with hotelBookings := st.hotelBookings.map (fun h =>
            if h.id == hb.id then { h with status := .paid } else h) }
            : State).hotelBookings.find? (fun h => h.transactionRef == ref)
          = some { hb with status := .paid } := by
        dsimp only
        rw [aux_find?_map_pred _ _ _
          (fun a => by by_cases hx : (a.id == hb.id) = true <;> simp [hx]), hh]
        dsimp only [Option.map]
        rw [if_pos (by simp)]
      have e2 : squad_webhook_post now2
          ({ st with hotelBookings := st.hotelBookings.map (fun h =>
             if h.id == hb.id then { h with status := .paid } else h) })
          "charge_successful" "Success" ref
          = ({ st with hotelBookings := st.hotelBookings.map (fun h =>
               if h.id == hb.id then { h with status := .paid } else h) },
             .okAck) := by
        unfold squad_webhook_post
        rw [if_neg (by decide), hh2]
        dsimp only
        rw [if_neg (by simp)]
      rw [e1, e2]
      exact ⟨rfl, rfl⟩
    · have e1 : ∀ n, squad_webhook_post n st "charge_successful" "Success" ref
          = (st, .okAck) := by
        intro n
        unfold squad_webhook_post
        rw [if_neg (by decide), hh]
        dsimp only
        rw [if_neg hst]
      rw [e1 now1, e1 now2]
      exact ⟨rfl, rfl⟩
  | none =>
    cases hl : st.leasePayments.find? (fun p => p.transactionRef == ref) with
    | some lp =>
      by_cases hst : (lp.status != PayStatus.paid) = true
      · have hl2 : ((st.leasePayments.map (fun p =>
             if p.id == lp.id then { p with status := .paid } else p)).find?
             (fun p => p.transactionRef == ref))
            = some { lp with status := .paid } := by
          rw [aux_find?_map_pred _ _ _
            (fun a => by by_cases hx : (a.id == lp.id) = true <;> simp [hx]), hl]
          dsimp only [Option.map]
          rw [if_pos (by simp)]
        have e1 : squad_webhook_post now1 st "charge_successful" "Success" ref
            = ((match (st.bookings.find? (fun b => b.leasePayment == some lp.id))
                  with
                | some rb =>
                  if rb.status == BStatus.saved then
                    updateBooking
                      { st with leasePayments := st.leasePayments.map (fun p =>
                          if p.id == lp.id then { p with status := .paid }
                          else p) }
                      rb.id (fun b =>
                        { b with status := .paidPendingConfirmation,
                                 updatedAt := now1 })
                  else
                    { st with leasePayments := st.leasePayments.map (fun p =>
                        if p.id == lp.id then { p with status := .paid }
                        else p) }
                | none =>
                  { st with leasePayments := st.leasePayments.map (fun p =>
                      if p.id == lp.id then { p with status := .paid }
                      else p) }),
               PostAck.okAck) := by
          unfold squad_webhook_post
          rw [if_neg (by decide), hh]
          dsimp only
          rw [hl]
          dsimp only
          rw [if_pos hst]
        rw [e1]
        dsimp only
        cases hbk : st.bookings.find? (fun b => b.leasePayment == some lp.id)
          with
        | some rb =>
          dsimp only
          by_cases hsv : (rb.status == BStatus.saved) = true
          · rw [if_pos hsv]
            have e2 : squad_webhook_post now2
                (updateBooking
                  { st with leasePayments := st.leasePayments.map (fun p =>
                      if p.id == lp.id then { p with status := .paid } else p) }
                  rb.id (fun b =>
                    { b with status := .paidPendingConfirmation,
                             updatedAt := now1 }))
                "charge_successful" "Success" ref
                = (updateBooking
                    { st with leasePayments := st.leasePayments.map (fun p =>
                        if p.id == lp.id then { p with status := .paid }
                        else p) }
                    rb.id (fun b =>
                      { b with status := .paidPendingConfirmation,
                               updatedAt := now1 }),
                   .okAck) := by
              unfold squad_webhook_post
              rw [if_neg (by decide)]
              rw [show (updateBooking
                  { st with leasePayments := st.leasePayments.map (fun p =>
                      if p.id == lp.id then { p with status := .paid } else p) }
                  rb.id (fun b =>
                    { b with status := .paidPendingConfirmation,
                             updatedAt := now1 })).hotelBookings.find?
                  (fun h => h.transactionRef == ref) = none from hh]
              rw [show (updateBooking
                  { st with leasePayments := st.leasePayments.map (fun p =>
                      if p.id == lp.id then { p with status := .paid } else p) }
                  rb.id (fun b =>
                    { b with status := .paidPendingConfirmation,
                             updatedAt := now1 })).leasePayments.find?
                  (fun p => p.transactionRef == ref)
                  = some { lp with status := .paid } from hl2]
              dsimp only
              rw [if_neg (by simp)]
            rw [e2]
            exact ⟨rfl, rfl⟩
          · rw [if_neg hsv]
            have e2 : squad_webhook_post now2
                { st with leasePayments := st.leasePayments.map (fun p =>
                    if p.id == lp.id then { p with status := .paid } else p) }
                "charge_successful" "Success" ref
                = ({ st with leasePayments := st.leasePayments.map (fun p =>
                      if p.id == lp.id then { p with status := .paid }
                      else p) },
                   .okAck) := by
              unfold squad_webhook_post
              rw [if_neg (by decide)]
              rw [show ({ st with leasePayments := st.leasePayments.map (fun p =>
                  if p.id == lp.id then { p with status := .paid } else p) }
                  : State).hotelBookings.find? (fun h => h.transactionRef == ref)
                  = none from hh]
              rw [show ({ st with leasePayments := st.leasePayments.map (fun p =>
                  if p.id == lp.id then { p with status := .paid } else p) }
                  : State).leasePayments.find? (fun p => p.transactionRef == ref)
                  = some { lp with status := .paid } from hl2]
              dsimp only
              rw [if_neg (by simp)]
            rw [e2]
            exact ⟨rfl, rfl⟩
        | none =>
          dsimp only
          have e2 : squad_webhook_post now2
              { st with leasePayments := st.leasePayments.map (fun p =>
                  if p.id == lp.id then { p with status := .paid } else p) }
              "charge_successful" "Success" ref
              = ({ st with leasePayments := st.leasePayments.map (fun p =>
                    if p.id == lp.id then { p with status := .paid } else p) },
                 .okAck) := by
            unfold squad_webhook_post
            rw [if_neg (by decide)]
            rw [show ({ st with leasePayments := st.leasePayments.map (fun p =>
                if p.id == lp.id then { p with status := .paid } else p) }
                : State).hotelBookings.find? (fun h => h.transactionRef == ref)
                = none from hh]
            rw [show ({ st with leasePayments := st.leasePayments.map (fun p =>
                if p.id == lp.id then { p with status := .paid } else p) }
                : State).leasePayments.find? (fun p => p.transactionRef == ref)
                = some { lp with status := .paid } from hl2]
            dsimp only
            rw [if_neg (by simp)]
          rw [e2]
          exact ⟨rfl, rfl⟩
      · have e1 : ∀ n, squad_webhook_post n st "charge_successful" "Success" ref
            = (st, .okAck) := by
          intro n
          unfold squad_webhook_post
          rw [if_neg (by decide), hh]
          dsimp only
          rw [hl]
          dsimp only
          rw [if_neg hst]
        rw [e1 now1, e1 now2]
        exact ⟨rfl, rfl⟩
    | none =>
      have e1 : ∀ n, squad_webhook_post n st "charge_successful" "Success" ref
          = (st, .ignoredAck) := by
        intro n
        unfold squad_webhook_post
        rw [if_neg (by decide), hh]
        dsimp only
        rw [hl]
      rw [e1 now1, e1 now2]
      exact ⟨rfl, rfl⟩

/-- C10 (implicit): the GET browser-redirect variant of the webhook is
not read-only — for every transaction reference it performs exactly the
state mutation of the POST success webhook (hotel bookings checked
first, then lease payments, with a linked saved booking advanced), so
the resulting states of the two handlers coincide. -/
theorem c10_get_redirect_mutates_like_post :
    ∀ (now : Nat) (st : State) (ref : String),
      (squad_webhook_get now st (some ref)).1
        = (squad_webhook_post now st "charge_successful" "Success" ref).1 := by
  intro now st ref
  unfold squad_webhook_get squad_webhook_post
  rw [if_neg (by decide)]
  dsimp only
  cases hh : st.hotelBookings.find? (fun h => h.transactionRef == ref) with
  | some hb =>
    dsimp only
    by_cases hst : (hb.status != HBStatus.paid) = true
    · rw [if_pos hst, if_pos hst]
    · rw [if_neg hst, if_neg hst]
  | none =>
    dsimp only
    cases hl : st.leasePayments.find? (fun p => p.transactionRef == ref) with
    | some lp =>
      dsimp only
      by_cases hst : (lp.status != PayStatus.paid) = true
      · rw [if_pos hst, if_pos hst]
      · rw [if_neg hst, if_neg hst]
    | none =>
      dsimp only

/-- C9 witness: with the gateway credentials absent, initiating a
payment against the saved demonstration booking deletes the LeasePayment
and leaves the booking advanced to paid_pending_confirmation with no
linked payment. -/
theorem c9_misconfigured_cleanup_witness :
    (initiate_lease_payment offEnv (.success "u") 10 c1State1 1 .landlord 1
        "first_month_rent" none none none).2 = .err .gatewayMisconfigured ∧
    (initiate_lease_payment offEnv (.success "u") 10 c1State1 1 .landlord 1
        "first_month_rent" none none none).1.leasePayments
      = c1State1.leasePayments ∧
    ∃ bb, (initiate_lease_payment offEnv (.success "u") 10 c1State1 1 .landlord 1
        "first_month_rent" none none none).1.bookings.find?
        (fun b => b.id == c1SavedBooking.id) = some bb ∧
      bb.status = .paidPendingConfirmation ∧ bb.leasePayment = none ∧
      bb.initialAmountPaidNgn = some 50000 :=
  c9_misconfigured_cleanup offEnv (.success "u") 10 c1State1 1 .landlord 1 _
    50000 c1SavedBooking none none none rfl rfl rfl (by decide) (by decide)
    (by decide)

theorem aux_savedUnique_map (l : List Booking) (u : Booking → Booking)
    (hu : ∀ b, (u b).status = .saved →
      (u b).userId = b.userId ∧ (u b).listingType = b.listingType ∧
      (u b).listingId = b.listingId ∧ b.status = .saved)
    (h : savedUniqueL l) : savedUniqueL (l.map u) := by
  intro b1 hb1 b2 hb2 hs1 hs2 hu12 hlt12 hlid12
  obtain ⟨a1, ha1, rfl⟩ := List.mem_map.mp hb1
  obtain ⟨a2, ha2, rfl⟩ := List.mem_map.mp hb2
  obtain ⟨e1u, e1t, e1i, e1s⟩ := hu a1 hs1
  obtain ⟨e2u, e2t, e2i, e2s⟩ := hu a2 hs2
  have heq : a1 = a2 := h a1 ha1 a2 ha2 e1s e2s
    (by rw [← e1u, ← e2u]; exact hu12)
    (by rw [← e1t, ← e2t]; exact hlt12)
    (by rw [← e1i, ← e2i]; exact hlid12)
  rw [heq]

theorem aux_savedUnique_append_notsaved (l : List Booking) (nb : Booking)
    (hnb : nb.status ≠ .saved) (h : savedUniqueL l) :
    savedUniqueL (l ++ [nb]) := by
  intro b1 hb1 b2 hb2 hs1 hs2 hu12 hlt12 hlid12
  rcases List.mem_append.mp hb1 with h1 | h1
  · rcases List.mem_append.mp hb2 with h2 | h2
    · exact h b1 h1 b2 h2 hs1 hs2 hu12 hlt12 hlid12
    · rw [List.mem_singleton.mp h2] at hs2
      exact absurd hs2 hnb
  · rw [List.mem_singleton.mp h1] at hs1
    exact absurd hs1 hnb

theorem aux_savedUnique_append_guard (l : List Booking) (nb : Booking)
    (hguard : ∀ b ∈ l, b.status = .saved →
      ¬(b.userId = nb.userId ∧ b.listingType = nb.listingType ∧
        b.listingId = nb.listingId))
    (h : savedUniqueL l) : savedUniqueL (l ++ [nb]) := by
  intro b1 hb1 b2 hb2 hs1 hs2 hu12 hlt12 hlid12
  rcases List.mem_append.mp hb1 with h1 | h1
  · rcases List.mem_append.mp hb2 with h2 | h2
    · exact h b1 h1 b2 h2 hs1 hs2 hu12 hlt12 hlid12
    · have h2e := List.mem_singleton.mp h2
      subst h2e
      exact absurd ⟨hu12, hlt12, hlid12⟩ (hguard b1 h1 hs1)
  · have h1e := List.mem_singleton.mp h1
    subst h1e
    rcases List.mem_append.mp hb2 with h2 | h2
    · exact absurd ⟨hu12.symm, hlt12.symm, hlid12.symm⟩ (hguard b2 h2 hs2)
    · rw [List.mem_singleton.mp h2]

theorem aux_savedUnique_updateBooking (st : State) (bid : Nat)
    (f : Booking → Booking)
    (hf : ∀ b, (f b).status = .saved →
      (f b).userId = b.userId ∧ (f b).listingType = b.listingType ∧
      (f b).listingId = b.listingId ∧ b.status = .saved)
    (h : savedUniqueState st) : savedUniqueState (updateBooking st bid f) := by
  unfold updateBooking savedUniqueState
  dsimp only
  apply aux_savedUnique_map _ _ _ h
  intro b hs
  by_cases hx : (b.id == bid) = true
  · rw [if_pos hx] at hs ⊢
    exact hf b hs
  · rw [if_neg hx] at hs ⊢
    exact ⟨rfl, rfl, rfl, hs⟩

theorem aux_savedUnique_deleteLease (st : State) (pid : Nat)
    (h : savedUniqueState st) : savedUniqueState (deleteLeasePayment st pid) := by
  unfold deleteLeasePayment savedUniqueState
  dsimp only
  apply aux_savedUnique_map _ _ _ h
  intro b hs
  by_cases hx : (b.leasePayment == some pid) = true
  · rw [if_pos hx] at hs ⊢
    exact ⟨rfl, rfl, rfl, hs⟩
  · rw [if_neg hx] at hs ⊢
    exact ⟨rfl, rfl, rfl, hs⟩

theorem aux_savedUnique_linkOrCreate (now : Nat) (st : State) (u : Nat)
    (lt : LType) (lid : Nat) (pt : String) (ci co : Option Int) (amount : Rat)
    (pid : Nat) (h : savedUniqueState st) :
    savedUniqueState (linkOrCreateBooking now st u lt lid pt ci co amount pid) := by
  unfold linkOrCreateBooking
  split
  · exact aux_savedUnique_updateBooking st _ _
      (fun b hs => by simp [linkSavedBooking] at hs) h
  · exact aux_savedUnique_append_notsaved st.bookings _
      (by simp [newPaidBooking]) h
  · exact h

theorem aux_savedUnique_save (env : Env) (now : Nat) (st : State) (u : Nat)
    (lt : LType) (lid : Nat) (ci co : Option Int) (h : savedUniqueState st) :
    savedUniqueState (save_booking env now st u lt lid ci co).1 := by
  unfold save_booking
  split
  · exact h
  · cases hf : st.bookings.find? (matchesActive u lt lid) with
    | some b => exact h
    | none =>
      dsimp only
      apply aux_savedUnique_append_guard _ _ _ h
      rintro b hb hbs ⟨hu', hlt', hlid'⟩
      apply List.find?_eq_none.mp hf b hb
      simp only [matchesActive, isActiveStatus, Bool.and_eq_true, beq_iff_eq,
        Bool.or_eq_true]
      exact ⟨⟨⟨hu', hlt'⟩, hlid'⟩, Or.inl hbs⟩

theorem aux_savedUnique_initiate (env : Env) (gw : ChargeOutcome) (now : Nat)
    (st : State) (u : Nat) (lt : LType) (lid : Nat) (pt : String)
    (ci co : Option Int) (room : Option Nat) (h : savedUniqueState st) :
    savedUniqueState
      (initiate_lease_payment env gw now st u lt lid pt ci co room).1 := by
  unfold initiate_lease_payment
  split
  · exact h
  · split
    · exact h
    · split
      · exact h
      · split
        · exact h
        · unfold initiateCharge
          split
          · exact aux_savedUnique_deleteLease _ _
              (aux_savedUnique_linkOrCreate _ _ _ _ _ _ _ _ _ _ h)
          · split
            · exact aux_savedUnique_linkOrCreate _ _ _ _ _ _ _ _ _ _ h
            · exact aux_savedUnique_linkOrCreate _ _ _ _ _ _ _ _ _ _ h
            · exact aux_savedUnique_linkOrCreate _ _ _ _ _ _ _ _ _ _ h

theorem aux_savedUnique_confirm (env : Env) (now : Nat) (st : State)
    (u bid : Nat) (h : savedUniqueState st) :
    savedUniqueState (confirm_booking env now st u bid).1 := by
  unfold confirm_booking
  cases hf : st.bookings.find? (fun b => b.id == bid && b.userId == u) with
  | none => exact h
  | some b =>
    dsimp only
    have hst1 := aux_savedUnique_updateBooking st bid
      (fun _ => { b with status := BStatus.confirmed, updatedAt := now })
      (fun x hs => by simp at hs) h
    repeat' first
      | exact h
      | exact hst1
      | split

theorem aux_savedUnique_cancel (now : Nat) (st : State) (u bid : Nat)
    (h : savedUniqueState st) :
    savedUniqueState (cancel_booking now st u bid).1 := by
  unfold cancel_booking
  cases hf : st.bookings.find? (fun b => b.id == bid && b.userId == u) with
  | none => exact h
  | some b =>
    dsimp only
    repeat' first
      | exact h
      | exact aux_savedUnique_updateBooking st bid _
          (fun x hs => by simp at hs) h
      | split

theorem aux_savedUnique_refund (now : Nat) (st : State) (u bid : Nat)
    (h : savedUniqueState st) :
    savedUniqueState (request_refund now st u bid).1 := by
  unfold request_refund
  cases hf : st.bookings.find? (fun b => b.id == bid && b.userId == u) with
  | none => exact h
  | some b =>
    dsimp only
    repeat' first
      | exact h
      | exact aux_savedUnique_updateBooking st bid _
          (fun x hs => by simp at hs) h
      | split

theorem aux_savedUnique_release (env : Env) (gw : DisburseOutcome) (now : Nat)
    (st : State) (u bid : Nat) (h : savedUniqueState st) :
    savedUniqueState (release_funds env gw now st u bid).1 := by
  unfold release_funds
  cases hf : st.bookings.find? (fun b => b.id == bid) with
  | none => exact h
  | some b =>
    dsimp only
    repeat' first
      | exact h
      | exact aux_savedUnique_updateBooking st bid
          (mark_funds_released now _) (fun x hs => ⟨rfl, rfl, rfl, hs⟩) h
      | split

theorem aux_payInit_bookings (env : Env) (gw : ChargeOutcome) (now : Nat)
    (st : State) (u : Nat) (room : Option Nat) (ci co : Option Int) :
    (initiate_payment env gw now st u room ci co).1.bookings = st.bookings := by
  unfold initiate_payment
  repeat' first
    | rfl
    | split

theorem aux_savedUnique_whPost (now : Nat) (st : State) (e t r : String)
    (h : savedUniqueState st) :
    savedUniqueState (squad_webhook_post now st e t r).1 := by
  unfold squad_webhook_post
  repeat' first
    | exact h
    | exact aux_savedUnique_updateBooking _ _ _
        (fun x hs => by simp at hs) h
    | split
    | dsimp only

theorem aux_savedUnique_whGet (now : Nat) (st : State) (r : Option String)
    (h : savedUniqueState st) :
    savedUniqueState (squad_webhook_get now st r).1 := by
  unfold squad_webhook_get
  repeat' first
    | exact h
    | exact aux_savedUnique_updateBooking _ _ _
        (fun x hs => by simp at hs) h
    | split
    | dsimp only

/-- C1 counterexample: from the empty state, saving an intent and then
initiating payment twice for the same (user, listing type, listing id)
pair leaves two bookings whose status is in the saved /
paid_pending_confirmation set, refuting the claimed at-most-one-active
invariant (the second InitiateLeasePayment finds no saved booking, so it
creates a fresh paid_pending_confirmation one). -/
theorem c1_unique_active_counterexample :
    (c1State3.bookings.filter (matchesActive 1 .landlord 1)).length = 2 := by
  decide

/-- C1 amended: every operation preserves at-most-one-saved-booking per
(user, listing type, listing id), and a second SaveBooking for an
existing listing while any active booking (saved or
paid_pending_confirmation) exists for the pair fails with the
duplicate-booking error without changing the state; the full
at-most-one-active invariant does not survive InitiateLeasePayment. -/
theorem c1_unique_active_amended :
    (∀ (env : Env) (now : Nat) (st : State) (op : Op),
       savedUniqueState st → savedUniqueState (applyOp env now st op)) ∧
    (∀ (env : Env) (now : Nat) (st : State) (u : Nat) (lt : LType) (lid : Nat)
       (ci co : Option Int) (b0 : Booking),
       listingExists env lt lid = true →
       b0 ∈ st.bookings → matchesActive u lt lid b0 = true →
       save_booking env now st u lt lid ci co = (st, .err .duplicateBooking)) := by
  constructor
  · intro env now st op h
    cases op with
    | save u lt lid ci co => exact aux_savedUnique_save env now st u lt lid ci co h
    | initiate gw u lt lid pt ci co room =>
      exact aux_savedUnique_initiate env gw now st u lt lid pt ci co room h
    | confirm u bid => exact aux_savedUnique_confirm env now st u bid h
    | cancel u bid => exact aux_savedUnique_cancel now st u bid h
    | refund u bid => exact aux_savedUnique_refund now st u bid h
    | release gw u bid => exact aux_savedUnique_release env gw now st u bid h
    | payInit gw u room ci co =>
      show savedUniqueL (initiate_payment env gw now st u room ci co).1.bookings
      rw [aux_payInit_bookings]
      exact h
    | whPost e t r => exact aux_savedUnique_whPost now st e t r h
    | whGet r => exact aux_savedUnique_whGet now st r h
  · intro env now st u lt lid ci co b0 hex hb0 hm
    unfold save_booking
    rw [hex]
    rw [if_neg (by decide)]
    cases hf : st.bookings.find? (matchesActive u lt lid) with
    | some b => rfl
    | none => exact absurd hm (List.find?_eq_none.mp hf b0 hb0)

/-- C1 witness: the saved-uniqueness invariant survives a concrete
operation on the demonstration state, and a second SaveBooking against
the active demonstration booking is rejected as a duplicate with the
state unchanged. -/
theorem c1_unique_active_amended_witness :
    savedUniqueState (applyOp demoEnv 5 c1State1 (.confirm 1 1)) ∧
    save_booking demoEnv 5 c1State1 1 .landlord 1 none none
      = (c1State1, .err .duplicateBooking) :=
  ⟨c1_unique_active_amended.1 demoEnv 5 c1State1 (.confirm 1 1)
     (by unfold savedUniqueState savedUniqueL; decide),
   c1_unique_active_amended.2 demoEnv 5 c1State1 1 .landlord 1 none none
     c1SavedBooking rfl (by decide) (by decide)⟩

theorem aux_fundsInv_append (l : List Booking) (nb : Booking)
    (hnb : nb.fundsReleased = false) (h : fundsInvL l) : fundsInvL (l ++ [nb]) := by
  intro b hb hf
  rcases List.mem_append.mp hb with h1 | h1
  · exact h b h1 hf
  · have he := List.mem_singleton.mp h1
    subst he
    rw [hnb] at hf
    cases hf

theorem aux_fundsInv_updateBooking (st : State) (bid : Nat)
    (f : Booking → Booking) (b0 : Booking) (hids : idsUniqueState st)
    (hb0 : b0 ∈ st.bookings) (hid0 : b0.id = bid)
    (hf : (f b0).fundsReleased = true →
      (f b0).status = .confirmed ∧ (f b0).releaseStatus = .released)
    (h : fundsInvState st) : fundsInvState (updateBooking st bid f) := by
  unfold updateBooking fundsInvState fundsInvL
  dsimp only
  intro b hb
  obtain ⟨a, ha, rfl⟩ := List.mem_map.mp hb
  by_cases hx : (a.id == bid) = true
  · have haid : a.id = bid := by simpa using hx
    have hab : a = b0 := hids a ha b0 hb0 (by rw [haid, hid0])
    subst hab
    rw [if_pos hx]
    exact hf
  · rw [if_neg hx]
    exact h a ha

theorem aux_fundsInv_deleteLease (st : State) (pid : Nat)
    (h : fundsInvState st) : fundsInvState (deleteLeasePayment st pid) := by
  unfold deleteLeasePayment fundsInvState fundsInvL
  dsimp only
  intro b hb
  obtain ⟨a, ha, rfl⟩ := List.mem_map.mp hb
  by_cases hx : (a.leasePayment == some pid) = true
  · rw [if_pos hx]
    exact h a ha
  · rw [if_neg hx]
    exact h a ha

theorem aux_fundsInv_linkOrCreate (now : Nat) (st : State) (u : Nat) (lt : LType)
    (lid : Nat) (pt : String) (ci co : Option Int) (amount : Rat) (pid : Nat)
    (hids : idsUniqueState st) (h : fundsInvState st) :
    fundsInvState (linkOrCreateBooking now st u lt lid pt ci co amount pid) := by
  unfold linkOrCreateBooking
  split
  · next b0 heq =>
    have hb0f : b0 ∈ st.bookings.filter (matchesSaved u lt lid) := by
      rw [heq]
      exact List.mem_singleton.mpr rfl
    have hb0 : b0 ∈ st.bookings := List.mem_of_mem_filter hb0f
    have hsv := List.of_mem_filter hb0f
    have hs0 : b0.status = .saved := by
      simp only [matchesSaved, Bool.and_eq_true, beq_iff_eq] at hsv
      exact hsv.2
    refine aux_fundsInv_updateBooking st b0.id _ b0 hids hb0 rfl
      (fun hfc => ?_) h
    have h2 := (h b0 hb0 hfc).1
    rw [hs0] at h2
    cases h2
  · exact aux_fundsInv_append st.bookings _ rfl h
  · exact h

theorem aux_fundsInv_save (env : Env) (now : Nat) (st : State) (u : Nat)
    (lt : LType) (lid : Nat) (ci co : Option Int) (h : fundsInvState st) :
    fundsInvState (save_booking env now st u lt lid ci co).1 := by
  unfold save_booking
  split
  · exact h
  · cases hf : st.bookings.find? (matchesActive u lt lid) with
    | some b => exact h
    | none =>
      dsimp only
      exact aux_fundsInv_append st.bookings _ rfl h

theorem aux_fundsInv_initiate (env : Env) (gw : ChargeOutcome) (now : Nat)
    (st : State) (u : Nat) (lt : LType) (lid : Nat) (pt : String)
    (ci co : Option Int) (room : Option Nat) (hids : idsUniqueState st)
    (h : fundsInvState st) :
    fundsInvState (initiate_lease_payment env gw now st u lt lid pt ci co room).1 := by
  unfold initiate_lease_payment
  split
  · exact h
  · split
    · exact h
    · split
      · exact h
      · split
        · exact h
        · unfold initiateCharge
          split
          · exact aux_fundsInv_deleteLease _ _
              (aux_fundsInv_linkOrCreate _ _ _ _ _ _ _ _ _ _ hids h)
          · split
            · exact aux_fundsInv_linkOrCreate _ _ _ _ _ _ _ _ _ _ hids h
            · exact aux_fundsInv_linkOrCreate _ _ _ _ _ _ _ _ _ _ hids h
            · exact aux_fundsInv_linkOrCreate _ _ _ _ _ _ _ _ _ _ hids h

theorem aux_fundsInv_confirm (env : Env) (now : Nat) (st : State) (u bid : Nat)
    (hids : idsUniqueState st) (h : fundsInvState st) :
    fundsInvState (confirm_booking env now st u bid).1 := by
  unfold confirm_booking
  cases hf : st.bookings.find? (fun b => b.id == bid && b.userId == u) with
  | none => exact h
  | some b =>
    dsimp only
    have hbmem := List.mem_of_find?_eq_some hf
    have hbid : b.id = bid := by
      have := List.find?_some hf
      simp only [Bool.and_eq_true, beq_iff_eq] at this
      exact this.1
    have hupd := aux_fundsInv_updateBooking st bid
      (fun _ => { b with status := BStatus.confirmed, updatedAt := now }) b
      hids hbmem hbid (fun hfc => ⟨rfl, (h b hbmem hfc).2⟩) h
    repeat' first
      | exact h
      | exact hupd
      | split

theorem aux_fundsInv_cancel (now : Nat) (st : State) (u bid : Nat)
    (hids : idsUniqueState st) (h : fundsInvState st) :
    fundsInvState (cancel_booking now st u bid).1 := by
  unfold cancel_booking
  cases hf : st.bookings.find? (fun b => b.id == bid && b.userId == u) with
  | none => exact h
  | some b =>
    dsimp only
    split
    · exact h
    · next hstat =>
      have hbmem := List.mem_of_find?_eq_some hf
      have hbid : b.id = bid := by
        have := List.find?_some hf
        simp only [Bool.and_eq_true, beq_iff_eq] at this
        exact this.1
      have hnc : b.status ≠ .confirmed := by
        intro hc
        exact hstat (by simp [hc])
      split
      · exact h
      · exact aux_fundsInv_updateBooking st bid _ b hids hbmem hbid
          (fun hfc => absurd (h b hbmem hfc).1 hnc) h

theorem aux_fundsInv_refund (now : Nat) (st : State) (u bid : Nat)
    (hids : idsUniqueState st) (h : fundsInvState st) :
    fundsInvState (request_refund now st u bid).1 := by
  unfold request_refund
  cases hf : st.bookings.find? (fun b => b.id == bid && b.userId == u) with
  | none => exact h
  | some b =>
    dsimp only
    split
    · exact h
    · next hstat =>
      have hbmem := List.mem_of_find?_eq_some hf
      have hbid : b.id = bid := by
        have := List.find?_some hf
        simp only [Bool.and_eq_true, beq_iff_eq] at this
        exact this.1
      have hsppc : b.status = .paidPendingConfirmation := by simpa using hstat
      have hupd := aux_fundsInv_updateBooking st bid (fun x =>
          { x with status := .cancelled, refundStatus := .requested,
                   refundProcessedAt := some now, updatedAt := now }) b
        hids hbmem hbid
        (fun hfc => by
          have h2 := (h b hbmem hfc).1
          rw [hsppc] at h2
          cases h2) h
      repeat' first
        | exact h
        | exact hupd
        | split

theorem aux_fundsInv_release (env : Env) (gw : DisburseOutcome) (now : Nat)
    (st : State) (u bid : Nat) (hids : idsUniqueState st)
    (h : fundsInvState st) :
    fundsInvState (release_funds env gw now st u bid).1 := by
  unfold release_funds
  cases hfind : st.bookings.find? (fun b => b.id == bid) with
  | none => exact h
  | some b =>
    dsimp only
    have hbmem := List.mem_of_find?_eq_some hfind
    have hbid : b.id = bid := by simpa using List.find?_some hfind
    split
    · exact h
    · cases hown : listingOwner env b.listingType b.listingId with
      | none => exact h
      | some owner =>
        dsimp only
        split
        · exact h
        · cases hcr : can_release_funds env b with
          | none => exact h
          | some cr =>
            cases cr with
            | false =>
              dsimp only
              split <;> exact h
            | true =>
              dsimp only
              obtain ⟨hs, hfr, a, hma, hpos⟩ := aux_can_release_true hcr
              repeat' first
                | exact h
                | exact aux_fundsInv_updateBooking st bid
                    (mark_funds_released now _) b hids hbmem hbid
                    (fun _ => ⟨hs, rfl⟩) h
                | split

theorem aux_fundsInv_whPost (now : Nat) (st : State) (e t r : String)
    (hids : idsUniqueState st) (h : fundsInvState st) :
    fundsInvState (squad_webhook_post now st e t r).1 := by
  unfold squad_webhook_post
  split
  · exact h
  · cases hh : st.hotelBookings.find? (fun x => x.transactionRef == r) with
    | some hb =>
      dsimp only
      split <;> exact h
    | none =>
      dsimp only
      cases hl : st.leasePayments.find? (fun p => p.transactionRef == r) with
      | none => exact h
      | some lp =>
        dsimp only
        split
        · dsimp only
          split
          · next rb hrbeq =>
            split
            · next hsv =>
              have hrbmem : rb ∈ st.bookings :=
                List.mem_of_find?_eq_some hrbeq
              have hssv : rb.status = .saved := by simpa using hsv
              exact aux_fundsInv_updateBooking _ rb.id _ rb hids hrbmem rfl
                (fun hfc => by
                  have h2 := (h rb hrbmem hfc).1
                  rw [hssv] at h2
                  cases h2) h
            · exact h
          · exact h
        · exact h

theorem aux_fundsInv_whGet (now : Nat) (st : State) (r : Option String)
    (hids : idsUniqueState st) (h : fundsInvState st) :
    fundsInvState (squad_webhook_get now st r).1 := by
  unfold squad_webhook_get
  split
  · exact h
  · cases hh : st.hotelBookings.find? (fun x => x.transactionRef == _) with
    | some hb =>
      dsimp only
      split <;> exact h
    | none =>
      dsimp only
      cases hl : st.leasePayments.find? (fun p => p.transactionRef == _) with
      | none => exact h
      | some lp =>
        dsimp only
        split
        · dsimp only
          split
          · next rb hrbeq =>
            split
            · next hsv =>
              have hrbmem : rb ∈ st.bookings :=
                List.mem_of_find?_eq_some hrbeq
              have hssv : rb.status = .saved := by simpa using hsv
              exact aux_fundsInv_updateBooking _ rb.id _ rb hids hrbmem rfl
                (fun hfc => by
                  have h2 := (h rb hrbmem hfc).1
                  rw [hssv] at h2
                  cases h2) h
            · exact h
          · exact h
        · exact h

/-- C5: for every booking, after any single operation completes on a
state whose booking primary keys are unique, funds_released = true
implies status = confirmed and release_status = released, provided the
implication held before the operation. -/
theorem c5_funds_released_invariant :
    ∀ (env : Env) (now : Nat) (st : State) (op : Op),
      idsUniqueState st → fundsInvState st →
      fundsInvState (applyOp env now st op) := by
  intro env now st op hids h
  cases op with
  | save u lt lid ci co => exact aux_fundsInv_save env now st u lt lid ci co h
  | initiate gw u lt lid pt ci co room =>
    exact aux_fundsInv_initiate env gw now st u lt lid pt ci co room hids h
  | confirm u bid => exact aux_fundsInv_confirm env now st u bid hids h
  | cancel u bid => exact aux_fundsInv_cancel now st u bid hids h
  | refund u bid => exact aux_fundsInv_refund now st u bid hids h
  | release gw u bid => exact aux_fundsInv_release env gw now st u bid hids h
  | payInit gw u room ci co =>
    show fundsInvL (initiate_payment env gw now st u room ci co).1.bookings
    rw [aux_payInit_bookings]
    exact h
  | whPost e t r => exact aux_fundsInv_whPost now st e t r hids h
  | whGet r => exact aux_fundsInv_whGet now st r hids h

/-- C5 witness: releasing funds on the demonstration confirmed booking
keeps the invariant in the resulting state. -/
theorem c5_funds_released_invariant_witness :
    fundsInvState (applyOp demoEnv 200 c2State (.release (.success (some "PREF")) 2 9)) :=
  c5_funds_released_invariant demoEnv 200 c2State
    (.release (.success (some "PREF")) 2 9)
    (by unfold idsUniqueState idsUniqueL; decide)
    (by unfold fundsInvState fundsInvL; decide)

end RentEscrow
